import Mathlib

/-!
Verification of the CycloneDX validation engine in
`complete_cyclonedx_validation.py` (Heimdall-SBOM/heimdall).

The Python code is shallowly embedded: parsed JSON documents become the
inductive type `JValue`, Python's fallible dictionary/sequence operations
become functions in the `Except PyErr` monad (a raised exception is an
`Except.error`), and each validation function of the source file becomes a
Lean definition of the same name.  The embedding follows the source
line by line; line numbers in comments refer to
`src/complete_cyclonedx_validation.py`.
-/

namespace CycloneDX

/-- A parsed JSON value, the input data model of the validator. -/
inductive JValue where
  | null : JValue
  | bool : Bool → JValue
  | num : Int → JValue
  | str : String → JValue
  | arr : List JValue → JValue
  | obj : List (String × JValue) → JValue

/-- Python exceptions that the validator can raise on malformed input
shapes.  (`ValueError` from `datetime.fromisoformat` is caught inside the
validator; the others escape.) -/
inductive PyErr where
  | attributeError : PyErr
  | typeError : PyErr
  | keyError : PyErr
  | valueError : PyErr
  deriving DecidableEq, Repr

/-- Computation that may raise a Python exception. -/
abbrev M (α : Type) := Except PyErr α

/-- First binding of a key in a parsed JSON object (parsed JSON objects
have distinct keys). -/
def jfind (fs : List (String × JValue)) (k : String) : Option JValue :=
  (fs.find? (fun p => p.1 == k)).map (fun p => p.2)

/-- `x == "k"` for a JSON value `x` and a string literal: true exactly for
the equal string (Python `==` between a string and any non-string JSON
value is `False`). -/
def jeqStr (x : JValue) (k : String) : Bool :=
  match x with
  | .str t => t == k
  | _ => false

/-- Substring test on character lists (`needle in haystack` for Python
strings; the empty needle is in every string). -/
def isSubList (p : List Char) : List Char → Bool
  | [] => p.isEmpty
  | c :: rest => p.isPrefixOf (c :: rest) || isSubList p rest

/-- Python `k in v` for a string `k`: key membership for dicts, element
membership for lists, substring for strings, `TypeError` otherwise. -/
def pyIn (k : String) : JValue → M Bool
  | .obj fs => .ok (fs.any (fun p => p.1 == k))
  | .arr xs => .ok (xs.any (fun x => jeqStr x k))
  | .str s => .ok (isSubList k.data s.data)
  | _ => .error .typeError

/-- Python `v[k]` for a string key: dict lookup (raising `KeyError` when
absent); list/str indexing with a string key raises `TypeError`, as does
subscripting any other value. -/
def pyGetItem : JValue → String → M JValue
  | .obj fs, k =>
      match jfind fs k with
      | some v => .ok v
      | none => .error .keyError
  | _, _ => .error .typeError

/-- Python `v.get(k, d)`: only dicts have `.get`; anything else raises
`AttributeError`. -/
def pyGetD : JValue → String → JValue → M JValue
  | .obj fs, k, d => .ok ((jfind fs k).getD d)
  | _, _, _ => .error .attributeError

/-- Python iteration (`for x in v`): lists yield their elements, strings
their characters (as one-character strings), dicts their keys; other
values raise `TypeError`. -/
def pyIter : JValue → M (List JValue)
  | .arr xs => .ok xs
  | .str s => .ok (s.data.map (fun c => .str (String.mk [c])))
  | .obj fs => .ok (fs.map (fun p => .str p.1))
  | _ => .error .typeError

/-- Calling a `str` method (`.replace`, `.startswith`) on a non-string
raises `AttributeError`. -/
def pyStrMethod : JValue → M String
  | .str s => .ok s
  | _ => .error .attributeError

/-- `re.match` with a non-string subject raises `TypeError`. -/
def reArg : JValue → M String
  | .str s => .ok s
  | _ => .error .typeError

mutual
/-- Python `str()` of a parsed JSON value, as interpolated by f-strings.
(String escaping inside `repr` of nested strings is simplified to plain
quoting; no claim depends on it.) -/
def pyStr : JValue → String
  | .null => "None"
  | .bool true => "True"
  | .bool false => "False"
  | .num n => toString n
  | .str s => s
  | .arr xs => "[" ++ pyReprList xs ++ "]"
  | .obj fs => "\x7b" ++ pyReprFields fs ++ "\x7d"

/-- Python `repr()` of a parsed JSON value (strings quoted). -/
def pyRepr : JValue → String
  | .null => "None"
  | .bool true => "True"
  | .bool false => "False"
  | .num n => toString n
  | .str s => "'" ++ s ++ "'"
  | .arr xs => "[" ++ pyReprList xs ++ "]"
  | .obj fs => "\x7b" ++ pyReprFields fs ++ "\x7d"

/-- Comma-joined `repr`s of list elements. -/
def pyReprList : List JValue → String
  | [] => ""
  | [x] => pyRepr x
  | x :: xs => pyRepr x ++ ", " ++ pyReprList xs

/-- Comma-joined `repr`ed key/value pairs of a dict. -/
def pyReprFields : List (String × JValue) → String
  | [] => ""
  | [(k, v)] => "'" ++ k ++ "': " ++ pyRepr v
  | (k, v) :: fs => "'" ++ k ++ "': " ++ pyRepr v ++ ", " ++ pyReprFields fs
end

/-- Membership of a JSON value in a list of string constants
(Python `v in ["a", "b", ...]`). -/
def pyInList (v : JValue) (ss : List String) : Bool :=
  ss.any (fun s => jeqStr v s)

mutual
/-- Python `==` between two parsed JSON values.  (Python's numeric
cross-type equalities such as `True == 1`, and its order-insensitive dict
equality, are not modelled; the values compared by the validator —
`bom-ref` entries — are strings in every claim.) -/
def jeq : JValue → JValue → Bool
  | .null, .null => true
  | .bool a, .bool b => a == b
  | .num a, .num b => a == b
  | .str a, .str b => a == b
  | .arr a, .arr b => jeqL a b
  | .obj a, .obj b => jeqF a b
  | _, _ => false

/-- Elementwise `==` on JSON lists. -/
def jeqL : List JValue → List JValue → Bool
  | [], [] => true
  | a :: as, b :: bs => jeq a b && jeqL as bs
  | _, _ => false

/-- Pairwise `==` on JSON object fields. -/
def jeqF : List (String × JValue) → List (String × JValue) → Bool
  | [], [] => true
  | (k, v) :: as, (l, w) :: bs => k == l && jeq v w && jeqF as bs
  | _, _ => false
end

/-- Membership of a JSON value in the running `bom_refs` set
(Python `v in bom_refs`, which compares with `==`). -/
def jmem (v : JValue) (refs : List JValue) : Bool :=
  refs.any (fun r => jeq r v)

/-- Python string `<` (lexicographic by code point). -/
def clLt : List Char → List Char → Bool
  | [], [] => false
  | [], _ :: _ => true
  | _ :: _, [] => false
  | a :: as, b :: bs => a < b || (a == b && clLt as bs)

/-- Python `s < t` on strings. -/
def pyLt (s t : String) : Bool := clLt s.data t.data

/-- Python `s >= t` on strings (total order, so `¬ <`). -/
def pyGe (s t : String) : Bool := !(pyLt s t)

/-! ### Value grammars (regular expressions used by the source)

`re.match` with a pattern anchored as `^...$` accepts the exact pattern,
and — a documented quirk of Python's `$` — also the pattern followed by a
single trailing newline.  `pyDollar` wraps a core matcher accordingly. -/

/-- Python `re.match(r'^core$', s)` as a Boolean: `core` must match the
whole string, or the whole string minus one trailing newline. -/
def pyDollar (core : List Char → Bool) (s : String) : Bool :=
  core s.data || (s.data.getLast? == some '\n' && core s.data.dropLast)

/-- `[a-fA-F0-9]`. -/
def isHexC (c : Char) : Bool :=
  ('0' ≤ c && c ≤ '9') || ('a' ≤ c && c ≤ 'f') || ('A' ≤ c && c ≤ 'F')

/-- `[a-f0-9]` (the UUID pattern is matched case-insensitively, so the
subject is lowercased first). -/
def isLowerHexC (c : Char) : Bool :=
  ('0' ≤ c && c ≤ '9') || ('a' ≤ c && c ≤ 'f')

/-- Core of the hash-content patterns: exactly `n` hex digits
(`^[a-fA-F0-9]{n}$`, source lines 348–361). -/
def hashCore (n : Nat) (cs : List Char) : Bool :=
  cs.length == n && cs.all isHexC

/-- Core of the serial-number pattern
`^urn:uuid:[0-9a-f]{8}-[0-9a-f]{4}-[0-9a-f]{4}-[0-9a-f]{4}-[0-9a-f]{12}$`
on an already-lowercased subject (source line 46, `re.IGNORECASE`). -/
def uuidCore (cs : List Char) : Bool :=
  "urn:uuid:".data.isPrefixOf cs &&
    (let r := cs.drop 9
     r.length == 36 &&
       (List.range 36).all (fun i =>
         if i == 8 || i == 13 || i == 18 || i == 23 then
           r.getD i ' ' == '-'
         else
           isLowerHexC (r.getD i ' ')))

/-- `re.match(uuid_pattern, s, re.IGNORECASE)` as a Boolean. -/
def uuidMatch (s : String) : Bool :=
  pyDollar (fun cs => uuidCore (cs.map Char.toLower)) s

/-- `[-+a-z0-9.]`, the character class of the MIME pattern. -/
def mimeChar (c : Char) : Bool :=
  c == '-' || c == '+' || c == '.' || ('a' ≤ c && c ≤ 'z') || ('0' ≤ c && c ≤ '9')

/-- Core of `^[-+a-z0-9.]+/[-+a-z0-9.]+$` (source line 261): exactly one
slash separating two nonempty runs of MIME characters. -/
def mimeCore (cs : List Char) : Bool :=
  match cs.splitOn '/' with
  | [a, b] => !a.isEmpty && !b.isEmpty && a.all mimeChar && b.all mimeChar
  | _ => false

/-- Core of the email pattern `^[^@]+@[^@]+\.[^@]+$` (source line 453):
exactly one `@`, a nonempty local part, and a domain containing a dot
that is neither its first nor its last character. -/
def emailCore (cs : List Char) : Bool :=
  match cs.splitOn '@' with
  | [l, d] => !l.isEmpty && !d.isEmpty && ((d.drop 1).dropLast.contains '.')
  | _ => false

/-! ### `datetime.fromisoformat` (CPython 3.7–3.10 semantics)

The source parses timestamps with
`datetime.fromisoformat(ts.replace('Z', '+00:00'))` (lines 62 and 486),
catching `ValueError`.  The accepted grammar is
`YYYY-MM-DD[<any sep>HH[:MM[:SS[.fff[fff]]]][(+|-)HH:MM[:SS[.ffffff]]]]`
with calendar/range validation by the `datetime` constructor.  A timezone
part is optional — naive timestamps parse successfully.  (`int()`'s
tolerance of an embedded sign or whitespace inside a two-digit component
is not modelled.) -/

/-- `[0-9]`. -/
def isDigitC (c : Char) : Bool := '0' ≤ c && c ≤ '9'

/-- Numeric value of a digit character. -/
def digitVal (c : Char) : Nat := c.toNat - '0'.toNat

/-- `int()` of a fixed all-digit character run. -/
def parseDigits (cs : List Char) : Option Nat :=
  if !cs.isEmpty && cs.all isDigitC then
    some (cs.foldl (fun a c => a * 10 + digitVal c) 0)
  else none

/-- Gregorian leap year (as used by `datetime`). -/
def isLeap (y : Nat) : Bool := y % 4 == 0 && (y % 100 != 0 || y % 400 == 0)

/-- Days in a month, per the `datetime` constructor's validation. -/
def daysInMonth (y m : Nat) : Nat :=
  if m == 2 then (if isLeap y then 29 else 28)
  else if m == 4 || m == 6 || m == 9 || m == 11 then 30
  else 31

/-- CPython's `_parse_hh_mm_ss_ff`: `HH`, `HH:MM`, `HH:MM:SS`,
`HH:MM:SS.fff` or `HH:MM:SS.ffffff`; returns (hour, minute, second,
microsecond) without range checks. -/
def parseHMSF (cs : List Char) : Option (Nat × Nat × Nat × Nat) :=
  match cs with
  | h1 :: h2 :: rest =>
      if isDigitC h1 && isDigitC h2 then
        let h := digitVal h1 * 10 + digitVal h2
        match rest with
        | [] => some (h, 0, 0, 0)
        | ':' :: m1 :: m2 :: rest2 =>
            if isDigitC m1 && isDigitC m2 then
              let m := digitVal m1 * 10 + digitVal m2
              match rest2 with
              | [] => some (h, m, 0, 0)
              | ':' :: s1 :: s2 :: rest3 =>
                  if isDigitC s1 && isDigitC s2 then
                    let s := digitVal s1 * 10 + digitVal s2
                    match rest3 with
                    | [] => some (h, m, s, 0)
                    | '.' :: frac =>
                        if frac.length == 3 then
                          (parseDigits frac).map (fun f => (h, m, s, f * 1000))
                        else if frac.length == 6 then
                          (parseDigits frac).map (fun f => (h, m, s, f))
                        else none
                    | _ => none
                  else none
              | _ => none
            else none
        | _ => none
      else none
  | _ => none

/-- Position used by CPython to split off the timezone:
`tstr.find('-') + 1 or tstr.find('+') + 1` — one past the first `-` if
any, else one past the first `+` if any, else `0`. -/
def tzPos (cs : List Char) : Nat :=
  match cs.indexOf? '-' with
  | some i => i + 1
  | none =>
      match cs.indexOf? '+' with
      | some i => i + 1
      | none => 0

/-- CPython's `_parse_isoformat_time` combined with the range checks of
the `datetime`/`timezone` constructors: does the time part (everything
after the separator) denote a valid time? -/
def timePartOk (cs : List Char) : Bool :=
  if cs.length < 2 then false
  else
    let p := tzPos cs
    let timestr := if p > 0 then cs.take (p - 1) else cs
    match parseHMSF timestr with
    | none => false
    | some (h, m, s, _) =>
        -- range checks performed by the datetime constructor
        (h ≤ 23 && m ≤ 59 && s ≤ 59) &&
          (if p > 0 then
            let tzstr := cs.drop p
            (tzstr.length == 5 || tzstr.length == 8 || tzstr.length == 15) &&
              (match parseHMSF tzstr with
               | none => false
               | some (th, tm, ts, tus) =>
                   -- timezone() requires |offset| strictly below 24 hours
                   ((th * 3600 + tm * 60 + ts) * 1000000 + tus) < 86400000000)
          else true)

/-- `datetime.fromisoformat(s)` succeeds (CPython 3.7–3.10). -/
def fromisoformatOk (s : String) : Bool :=
  let cs := s.data
  if cs.length < 10 then false
  else
    match cs.take 10 with
    | [y1, y2, y3, y4, sep1, m1, m2, sep2, d1, d2] =>
        (isDigitC y1 && isDigitC y2 && isDigitC y3 && isDigitC y4 &&
         sep1 == '-' && isDigitC m1 && isDigitC m2 &&
         sep2 == '-' && isDigitC d1 && isDigitC d2) &&
          (let y := ((digitVal y1 * 10 + digitVal y2) * 10 + digitVal y3) * 10 + digitVal y4
           let m := digitVal m1 * 10 + digitVal m2
           let d := digitVal d1 * 10 + digitVal d2
           (1 ≤ y && 1 ≤ m && m ≤ 12 && 1 ≤ d && d ≤ daysInMonth y m) &&
             -- any single character may separate date and time
             (cs.length == 10 || timePartOk (cs.drop 11)))
    | _ => false

/-- `s.replace('Z', '+00:00')` (every occurrence). -/
def pyReplaceZ (s : String) : String :=
  String.mk (s.data.foldr (fun c acc => (if c == 'Z' then "+00:00".data else [c]) ++ acc) [])

/-! ### `urllib.parse` URL check (source lines 517–523)

`is_valid_url` requires `urlparse(url)` to yield a nonempty scheme and a
nonempty netloc; any exception (e.g. `urlparse` of a non-string) is
swallowed by the bare `except` and yields `False`. -/

/-- Characters allowed in a URL scheme by `urllib.parse`. -/
def schemeChar (c : Char) : Bool :=
  ('a' ≤ c && c ≤ 'z') || ('A' ≤ c && c ≤ 'Z') || isDigitC c ||
    c == '+' || c == '-' || c == '.'

/-- The part of `url` after the scheme marker: if the text before the
first `:` is nonempty and made of scheme characters, it is the scheme and
is stripped; otherwise the scheme is empty. -/
def splitScheme (cs : List Char) : Bool × List Char :=
  match cs.indexOf? ':' with
  | some i =>
      if i > 0 && (cs.take i).all schemeChar then (true, cs.drop (i + 1))
      else (false, cs)
  | none => (false, cs)

/-- `urlparse(url).netloc` is nonempty: the remainder starts with `//`
followed by at least one character other than `/`, `?`, `#`. -/
def netlocNonempty (rest : List Char) : Bool :=
  match rest with
  | '/' :: '/' :: r =>
      match r with
      | [] => false
      | c :: _ => !(c == '/' || c == '?' || c == '#')
  | _ => false

/-- `is_valid_url` (source lines 517–523); total, `False` for
non-strings because the bare `except` swallows the exception. -/
def is_valid_url (v : JValue) : Bool :=
  match v with
  | .str s =>
      let (hasScheme, rest) := splitScheme s.data
      hasScheme && netlocNonempty rest
  | _ => false

/-! ### Loop combinators

Python's `for i, x in enumerate(xs): issues.extend(body)` pattern; each
body returns the messages it appends, the combinator concatenates them in
order, and any raised exception aborts the loop (and the whole
validation) exactly as in Python. -/

/-- Indexed monadic loop over already-materialised iteration items. -/
def forIdxM (f : Nat → JValue → M (List String)) :
    List JValue → Nat → M (List String)
  | [], _ => .ok []
  | x :: xs, i => do
      let a ← f i x
      let b ← forIdxM f xs (i + 1)
      .ok (a ++ b)

/-- Indexed loop additionally threading the `bom_refs` set. -/
def forIdxRefsM
    (f : Nat → JValue → List JValue → M (List String × List JValue)) :
    List JValue → Nat → List JValue → M (List String × List JValue)
  | [], _, refs => .ok ([], refs)
  | x :: xs, i, refs => do
      let (a, refs') ← f i x refs
      let (b, refs'') ← forIdxRefsM f xs (i + 1) refs'
      .ok (a ++ b, refs'')

/-- Pure indexed collection (for loop bodies with no fallible step). -/
def collectIdx (f : Nat → JValue → List String) (xs : List JValue) :
    List String :=
  (xs.enum.map (fun p => f p.1 p.2)).flatten

/-- Short-circuiting `any(op in v for op in ops)`. -/
def anyInM (ops : List String) (v : JValue) : M Bool :=
  match ops with
  | [] => pure false
  | op :: rest => do
      let b ← pyIn op v
      if b then pure true else anyInM rest v

/-! ### Leaf validators (source lines 298–523) -/

/-- `validate_organizational_contact` (source lines 448–457). -/
def validate_organizational_contact (contact : JValue) (path : String) :
    M (List String) := do
  let b ← pyIn "email" contact
  if b then do
    let v ← pyGetItem contact "email"
    let s ← reArg v
    if pyDollar emailCore s then pure []
    else pure ["❌ " ++ path ++ " invalid email format"]
  else pure []

/-- `validate_organizational_entity` (source lines 427–446). -/
def validate_organizational_entity (entity : JValue) (path : String) :
    M (List String) := do
  let bName ← pyIn "name" entity
  let i1 : List String :=
    if bName then [] else ["❌ " ++ path ++ " missing required 'name' field"]
  let bUrl ← pyIn "url" entity
  let i2 ← if bUrl then do
      let v ← pyGetItem entity "url"
      match v with
      | .arr urls =>
          pure (collectIdx (fun i u =>
            if is_valid_url u then []
            else ["❌ " ++ path ++ ".url[" ++ toString i ++ "] invalid URL format"]) urls)
      | _ => pure ["❌ " ++ path ++ ".url should be array"]
    else pure []
  let bC ← pyIn "contact" entity
  let i3 ← if bC then do
      let v ← pyGetItem entity "contact"
      let items ← pyIter v
      forIdxM (fun i c =>
        validate_organizational_contact c (path ++ ".contact[" ++ toString i ++ "]")) items 0
    else pure []
  pure (i1 ++ i2 ++ i3)

/-- `validate_properties_array` (source lines 459–469). -/
def validate_properties_array (properties : JValue) (path : String) :
    M (List String) := do
  let items ← pyIter properties
  forIdxM (fun i prop => do
    let bN ← pyIn "name" prop
    let m1 := if bN then []
      else ["❌ " ++ path ++ "[" ++ toString i ++ "] missing 'name' field"]
    let bV ← pyIn "value" prop
    let m2 := if bV then []
      else ["❌ " ++ path ++ "[" ++ toString i ++ "] missing 'value' field"]
    pure (m1 ++ m2)) items 0

/-- The closed algorithm set of `validate_hash_object` (lines 334–338). -/
def valid_algorithms : List String :=
  ["MD5", "SHA-1", "SHA-256", "SHA-384", "SHA-512",
   "SHA3-256", "SHA3-384", "SHA3-512",
   "BLAKE2b-256", "BLAKE2b-384", "BLAKE2b-512", "BLAKE3"]

/-- Expected hex-digit count of each algorithm's content pattern
(lines 348–361). -/
def hashLen (a : String) : Nat :=
  if a == "MD5" then 32
  else if a == "SHA-1" then 40
  else if a == "SHA-256" then 64
  else if a == "SHA-384" then 96
  else if a == "SHA-512" then 128
  else if a == "SHA3-256" then 64
  else if a == "SHA3-384" then 96
  else if a == "SHA3-512" then 128
  else if a == "BLAKE2b-256" then 64
  else if a == "BLAKE2b-384" then 96
  else if a == "BLAKE2b-512" then 128
  else if a == "BLAKE3" then 64
  else 0

/-- `"alg" not in hash_obj or "content" not in hash_obj`,
short-circuiting (source line 330). -/
def hash_missing_check (bAlg : Bool) (hash_obj : JValue) : M Bool :=
  if !bAlg then pure true else do
    let bC ← pyIn "content" hash_obj
    pure !bC

/-- `validate_hash_object` (source lines 326–366). -/
def validate_hash_object (hash_obj : JValue) (path : String) :
    M (List String) := do
  let bAlg ← pyIn "alg" hash_obj
  let missing ← hash_missing_check bAlg hash_obj
  if missing then
    pure ["❌ " ++ path ++ " missing required fields (alg, content)"]
  else do
    let alg ← pyGetItem hash_obj "alg"
    let _content ← pyGetItem hash_obj "content"
    if !(pyInList alg valid_algorithms) then
      pure ["❌ " ++ path ++ " invalid algorithm: " ++ pyStr alg]
    else
      match alg with
      | .str a => do
          let s ← reArg _content
          if pyDollar (hashCore (hashLen a)) s then pure []
          else pure ["❌ " ++ path ++ " invalid " ++ a ++ " hash content format"]
      | _ => .error .keyError  -- unreachable: membership above forces a string

/-- The closed type set of `validate_external_reference` (lines 376–381). -/
def valid_ref_types : List String :=
  ["vcs", "issue-tracker", "website", "advisories", "bom",
   "mailing-list", "social", "chat", "documentation", "support",
   "distribution", "license", "build-meta", "build-system",
   "release-notes", "other"]

/-- `validate_external_reference` (source lines 368–394). -/
def validate_external_reference (ref : JValue) (path : String) :
    M (List String) := do
  let bUrl ← pyIn "url" ref
  let missing ← if !bUrl then pure true else do
      let bT ← pyIn "type" ref
      pure !bT
  if missing then
    pure ["❌ " ++ path ++ " missing required fields (url, type)"]
  else do
    let t ← pyGetItem ref "type"
    let i1 := if pyInList t valid_ref_types then []
      else ["❌ " ++ path ++ " invalid type: " ++ pyStr t]
    let u ← pyGetItem ref "url"
    let i2 := if is_valid_url u then [] else ["❌ " ++ path ++ " invalid URL format"]
    let bH ← pyIn "hashes" ref
    let i3 ← if bH then do
        let hv ← pyGetItem ref "hashes"
        let items ← pyIter hv
        forIdxM (fun i h =>
          validate_hash_object h (path ++ ".hashes[" ++ toString i ++ "]")) items 0
      else pure []
    pure (i1 ++ i2 ++ i3)

/-- The `if has_license:` block of `validate_license_choice`
(source lines 408–414). -/
def license_id_name_check (has_license : Bool) (license_choice : JValue)
    (path : String) : M (List String) :=
  if has_license then do
    let license_obj ← pyGetItem license_choice "license"
    let has_id ← pyIn "id" license_obj
    let has_name ← pyIn "name" license_obj
    if !has_id && !has_name then
      pure ["❌ " ++ path ++ ".license must have either 'id' or 'name'"]
    else pure []
  else pure []

/-- `any(op in expr for op in valid_operators) or " " not in expr`
(source line 420). -/
def spdx_heuristic_ok (anyOp : Bool) (expr : JValue) : M Bool :=
  if anyOp then pure true else do
    let sp ← pyIn " " expr
    pure !sp

/-- The `if has_expression:` block of `validate_license_choice`
(source lines 416–423). -/
def expression_format_check (has_expression : Bool) (license_choice : JValue)
    (path : String) : M (List String) :=
  if has_expression then do
    let expr ← pyGetItem license_choice "expression"
    let anyOp ← anyInM ["AND", "OR", "WITH"] expr
    let okExpr ← spdx_heuristic_ok anyOp expr
    if okExpr then pure []
    else pure ["❌ " ++ path ++ ".expression may be invalid SPDX format"]
  else pure []

/-- `validate_license_choice` (source lines 396–425). -/
def validate_license_choice (license_choice : JValue) (path : String) :
    M (List String) := do
  let has_license ← pyIn "license" license_choice
  let has_expression ← pyIn "expression" license_choice
  let i1 : List String :=
    if !has_license && !has_expression then
      ["❌ " ++ path ++ " must have either 'license' or 'expression'"]
    else if has_license && has_expression then
      ["❌ " ++ path ++ " cannot have both 'license' and 'expression'"]
    else []
  let i2 ← license_id_name_check has_license license_choice path
  let i3 ← expression_format_check has_expression license_choice path
  pure (i1 ++ i2 ++ i3)

/-- Body of the author/committer timestamp check inside
`validate_pedigree` (source lines 481–488). -/
def commit_field_check (path : String) (i : Nat) (commit : JValue)
    (field : String) : M (List String) := do
  let b ← pyIn field commit
  if b then do
    let action ← pyGetItem commit field
    let bT ← pyIn "timestamp" action
    if bT then do
      let tv ← pyGetItem action "timestamp"
      let s ← pyStrMethod tv
      if fromisoformatOk (pyReplaceZ s) then pure []
      else pure ["❌ " ++ path ++ ".commits[" ++ toString i ++ "]." ++ field ++
                 " invalid timestamp"]
    else pure []
  else pure []

/-- `validate_pedigree` (source lines 471–499). -/
def validate_pedigree (pedigree : JValue) (path : String) : M (List String) := do
  let bC ← pyIn "commits" pedigree
  let i1 ← if bC then do
      let v ← pyGetItem pedigree "commits"
      let items ← pyIter v
      forIdxM (fun i commit => do
        let bUid ← pyIn "uid" commit
        let m1 := if bUid then []
          else ["❌ " ++ path ++ ".commits[" ++ toString i ++ "] missing 'uid' field"]
        let m2 ← commit_field_check path i commit "author"
        let m3 ← commit_field_check path i commit "committer"
        pure (m1 ++ m2 ++ m3)) items 0
    else pure []
  let bP ← pyIn "patches" pedigree
  let i2 ← if bP then do
      let v ← pyGetItem pedigree "patches"
      let items ← pyIter v
      forIdxM (fun i patch => do
        let bT ← pyIn "type" patch
        if !bT then
          pure ["❌ " ++ path ++ ".patches[" ++ toString i ++ "] missing required 'type' field"]
        else do
          let t ← pyGetItem patch "type"
          if pyInList t ["unofficial", "monkey", "backport", "cherry-pick"] then pure []
          else pure ["❌ " ++ path ++ ".patches[" ++ toString i ++ "] invalid patch type"]) items 0
    else pure []
  pure (i1 ++ i2)

/-- `validate_evidence` (source lines 501–515). -/
def validate_evidence (evidence : JValue) (path : String) (version : String) :
    M (List String) := do
  let b ← pyIn "callstack" evidence
  if b then do
    let cs ← pyGetItem evidence "callstack"
    let framesV ← pyGetD cs "frames" (.arr [])
    let frames ← pyIter framesV
    forIdxM (fun i frame => do
      if version == "1.5" then do
        let bM ← pyIn "module" frame
        if bM then pure []
        else pure ["❌ " ++ path ++ ".callstack.frames[" ++ toString i ++
                   "] missing required 'module' field in 1.5"]
      else pure []) frames 0
  else pure []

/-- `validate_service_structure` (source lines 298–324). -/
def validate_service_structure (service : JValue) (path : String) :
    M (List String) := do
  let bN ← pyIn "name" service
  let i1 := if bN then [] else ["❌ " ++ path ++ " missing required 'name' field"]
  let bE ← pyIn "endpoints" service
  let i2 ← if bE then do
      let v ← pyGetItem service "endpoints"
      let items ← pyIter v
      pure (collectIdx (fun i e =>
        if is_valid_url e then []
        else ["❌ " ++ path ++ ".endpoints[" ++ toString i ++ "] invalid URL format"]) items)
    else pure []
  let bD ← pyIn "data" service
  let i3 ← if bD then do
      let v ← pyGetItem service "data"
      let items ← pyIter v
      forIdxM (fun i di => do
        let bF ← pyIn "flow" di
        let flowBad ← if !bF then pure true else do
            let f ← pyGetItem di "flow"
            pure !(pyInList f ["inbound", "outbound", "bi-directional", "unknown"])
        let m1 := if flowBad then
            ["❌ " ++ path ++ ".data[" ++ toString i ++ "] invalid or missing flow"]
          else []
        let bCl ← pyIn "classification" di
        let m2 := if bCl then []
          else ["❌ " ++ path ++ ".data[" ++ toString i ++ "] missing classification"]
        pure (m1 ++ m2)) items 0
    else pure []
  let bP ← pyIn "provider" service
  let i4 ← if bP then do
      let v ← pyGetItem service "provider"
      validate_organizational_entity v (path ++ ".provider")
    else pure []
  pure (i1 ++ i2 ++ i3 ++ i4)

/-! ### Component validation (source lines 202–296)

`validate_component_structure` recurses into nested components.  The
recursion is realised with a fuel parameter that decreases on every
descent; `jsize` strictly bounds the nesting reachable from a value (a
descent always goes to a value of smaller `jsize`: an element or key of
the value stored under the `"components"` key, or a one-character string
of `jsize` 1, while the parent object has `jsize` at least 3), so fuel
`jsize c` at the entry point can never run out and the `0`-fuel branch is
unreachable. -/

mutual
/-- Size measure on JSON values used as recursion fuel. -/
def jsize : JValue → Nat
  | .null => 1
  | .bool _ => 1
  | .num _ => 1
  | .str _ => 1
  | .arr xs => 1 + jsizeL xs
  | .obj fs => 1 + jsizeF fs

/-- Size of a JSON list. -/
def jsizeL : List JValue → Nat
  | [] => 0
  | v :: vs => 1 + jsize v + jsizeL vs

/-- Size of JSON object fields. -/
def jsizeF : List (String × JValue) → Nat
  | [] => 0
  | (_, v) :: fs => 1 + jsize v + jsizeF fs
end

/-- The closed component type set (source lines 210–211). -/
def valid_component_types : List String :=
  ["application", "framework", "library", "container",
   "operating-system", "device", "firmware", "file"]

/-- All checks of `validate_component_structure` except the recursive
nested-components block (source lines 206–289, in source order). -/
def vcs_flat (component : JValue) (path version : String) : M (List String) := do
  -- type (207–213)
  let bT ← pyIn "type" component
  let i1 ← if !bT then pure ["❌ " ++ path ++ " missing required 'type' field"]
    else do
      let t ← pyGetItem component "type"
      if pyInList t valid_component_types then pure []
      else pure ["❌ " ++ path ++ " invalid type: " ++ pyStr t]
  -- name (215–216)
  let bN ← pyIn "name" component
  let i2 := if bN then [] else ["❌ " ++ path ++ " missing required 'name' field"]
  -- version, required in 1.3 only (218–220)
  let i3 ← if version == "1.3" then do
      let bV ← pyIn "version" component
      if bV then pure []
      else pure ["❌ " ++ path ++ " missing required 'version' field in CycloneDX 1.3"]
    else pure []
  -- supplier shape by version (222–231)
  let bS ← pyIn "supplier" component
  let i4 ← if bS then
      if version == "1.3" then do
        let v ← pyGetItem component "supplier"
        match v with
        | .str _ => pure []
        | _ => pure ["❌ " ++ path ++ " supplier should be string in 1.3"]
      else if pyGe version "1.4" then do
        let v ← pyGetItem component "supplier"
        match v with
        | .obj _ => validate_organizational_entity v (path ++ ".supplier")
        | _ => pure ["❌ " ++ path ++ " supplier should be object in " ++ version ++ "+"]
      else pure []
    else pure []
  -- scope (233–237)
  let bSc ← pyIn "scope" component
  let i5 ← if bSc then do
      let v ← pyGetItem component "scope"
      if pyInList v ["required", "optional", "excluded"] then pure []
      else pure ["❌ " ++ path ++ " invalid scope: " ++ pyStr v]
    else pure []
  -- hashes (239–242)
  let bH ← pyIn "hashes" component
  let i6 ← if bH then do
      let v ← pyGetItem component "hashes"
      let items ← pyIter v
      forIdxM (fun i h =>
        validate_hash_object h (path ++ ".hashes[" ++ toString i ++ "]")) items 0
    else pure []
  -- licenses (244–247)
  let bL ← pyIn "licenses" component
  let i7 ← if bL then do
      let v ← pyGetItem component "licenses"
      let items ← pyIter v
      forIdxM (fun i lc =>
        validate_license_choice lc (path ++ ".licenses[" ++ toString i ++ "]")) items 0
    else pure []
  -- purl (249–252)
  let bP ← pyIn "purl" component
  let i8 ← if bP then do
      let v ← pyGetItem component "purl"
      let s ← pyStrMethod v
      if s.startsWith "pkg:" then pure []
      else pure ["❌ " ++ path ++ " invalid PURL format"]
    else pure []
  -- cpe (254–257)
  let bCp ← pyIn "cpe" component
  let i9 ← if bCp then do
      let v ← pyGetItem component "cpe"
      let s ← pyStrMethod v
      if s.startsWith "cpe:" then pure []
      else pure ["❌ " ++ path ++ " invalid CPE format"]
    else pure []
  -- mime-type (259–263)
  let bM ← pyIn "mime-type" component
  let i10 ← if bM then do
      let v ← pyGetItem component "mime-type"
      let s ← reArg v
      if pyDollar mimeCore s then pure []
      else pure ["❌ " ++ path ++ " invalid MIME type format"]
    else pure []
  -- swid (265–269)
  let bSw ← pyIn "swid" component
  let i11 ← if bSw then do
      let swid ← pyGetItem component "swid"
      let bTag ← pyIn "tagId" swid
      let bad ← if !bTag then pure true else do
          let bNm ← pyIn "name" swid
          pure !bNm
      if bad then pure ["❌ " ++ path ++ ".swid missing required fields (tagId, name)"]
      else pure []
    else pure []
  -- externalReferences (271–274)
  let bX ← pyIn "externalReferences" component
  let i12 ← if bX then do
      let v ← pyGetItem component "externalReferences"
      let items ← pyIter v
      forIdxM (fun i r =>
        validate_external_reference r (path ++ ".externalReferences[" ++ toString i ++ "]")) items 0
    else pure []
  -- pedigree (276–278)
  let bPd ← pyIn "pedigree" component
  let i13 ← if bPd then do
      let v ← pyGetItem component "pedigree"
      validate_pedigree v (path ++ ".pedigree")
    else pure []
  -- evidence, version-gated (280–285)
  let bEv ← pyIn "evidence" component
  let i14 ← if bEv then
      if pyLt version "1.5" then
        pure ["❌ " ++ path ++ " evidence field not available in " ++ version]
      else do
        let v ← pyGetItem component "evidence"
        validate_evidence v (path ++ ".evidence") version
    else pure []
  -- properties (287–289)
  let bPr ← pyIn "properties" component
  let i15 ← if bPr then do
      let v ← pyGetItem component "properties"
      validate_properties_array v (path ++ ".properties")
    else pure []
  pure (i1 ++ i2 ++ i3 ++ i4 ++ i5 ++ i6 ++ i7 ++ i8 ++ i9 ++ i10 ++
        i11 ++ i12 ++ i13 ++ i14 ++ i15)

/-- `validate_component_structure` with explicit fuel; the nested
components block is source lines 291–294. -/
def vcs_fuel : Nat → JValue → String → String → M (List String)
  | 0, _, _, _ => .error .valueError  -- unreachable from the entry points
  | fuel + 1, component, path, version => do
      let flat ← vcs_flat component path version
      let b ← pyIn "components" component
      let nested ← if b then do
          let v ← pyGetItem component "components"
          let items ← pyIter v
          items.enum.foldlM (fun acc p => do
            let a ← vcs_fuel fuel p.2
              (path ++ ".components[" ++ toString p.1 ++ "]") version
            pure (acc ++ a)) []
        else pure []
      pure (flat ++ nested)

/-- `validate_component_structure` (source lines 202–296). -/
def validate_component_structure (component : JValue) (path version : String) :
    M (List String) :=
  vcs_fuel (jsize component) component path version

/-! ### The main validator, `validate_complete_cyclonedx_schema`
(source lines 9–200), split into one definition per numbered block of the
source.  The Python function threads a single `issues` list, appending
only; each block here returns the messages it appends, and the top-level
definition concatenates them in execution order.  `print` calls produce
no diagnostics and are omitted. -/

/-- Required document fields (lines 18–24). -/
def required_fields_section (data : JValue) : M (List String) := do
  let b1 ← pyIn "bomFormat" data
  let b2 ← pyIn "specVersion" data
  let b3 ← pyIn "version" data
  pure ((if b1 then [] else ["❌ Missing required field: bomFormat"]) ++
        (if b2 then [] else ["❌ Missing required field: specVersion"]) ++
        (if b3 then [] else ["❌ Missing required field: version"]))

/-- `bomFormat` value check (lines 26–28). -/
def bomformat_section (data : JValue) : M (List String) := do
  let v ← pyGetD data "bomFormat" .null
  if jeqStr v "CycloneDX" then pure []
  else pure ["❌ Invalid bomFormat: " ++ pyStr v]

/-- Version-specific `$schema` check (lines 30–42). -/
def schema_section (data : JValue) (version : String) : M (List String) := do
  if pyGe version "1.4" then do
    let b ← pyIn "$schema" data
    if !b then pure ["❌ Missing $schema field (required in " ++ version ++ "+)"]
    else do
      let v ← pyGetItem data "$schema"
      if jeqStr v ("http://cyclonedx.org/schema/bom-" ++ version ++ ".schema.json")
      then pure []
      else pure ["❌ Incorrect $schema for " ++ version]
  else do
    let b ← pyIn "$schema" data
    if b then pure ["❌ $schema should not be present in " ++ version]
    else pure []

/-- `serialNumber` UUID check (lines 44–52; the `elif` branch only
prints a recommendation, producing no diagnostic). -/
def serial_section (data : JValue) : M (List String) := do
  let b ← pyIn "serialNumber" data
  if b then do
    let v ← pyGetItem data "serialNumber"
    let s ← reArg v
    if uuidMatch s then pure []
    else pure ["❌ Invalid UUID format for serialNumber"]
  else pure []

/-- `all(k in tool for k in ["vendor", "name", "version"])`,
short-circuiting (line 87). -/
def allVendorNameVersion (tool : JValue) : M Bool := do
  let b1 ← pyIn "vendor" tool
  if !b1 then pure false else do
    let b2 ← pyIn "name" tool
    if !b2 then pure false else pyIn "version" tool

/-- Metadata validation block (lines 54–123). -/
def metadata_section (data : JValue) (version : String) : M (List String) := do
  let metadata ← pyGetD data "metadata" (.obj [])
  -- timestamp (59–65)
  let bT ← pyIn "timestamp" metadata
  let i1 ← if bT then do
      let v ← pyGetItem metadata "timestamp"
      let s ← pyStrMethod v
      if fromisoformatOk (pyReplaceZ s) then pure []
      else pure ["❌ Invalid ISO 8601 timestamp format"]
    else pure []
  -- tools, shape by version (67–88)
  let bTo ← pyIn "tools" metadata
  let i2 ← if bTo then do
      let tools ← pyGetItem metadata "tools"
      if pyGe version "1.5" then do
        let bad ← match tools with
          | .obj fs => pure !(fs.any (fun p => p.1 == "components"))
          | _ => pure true
        if bad then pure ["❌ Tools should use components structure in " ++ version ++ "+"]
        else do
          let comps ← pyGetD tools "components" (.arr [])
          let items ← pyIter comps
          forIdxM (fun i tool =>
            validate_component_structure tool
              ("tools.components[" ++ toString i ++ "]") version) items 0
      else
        match tools with
        | .arr ts =>
            forIdxM (fun i tool => do
              let ok ← allVendorNameVersion tool
              if ok then pure []
              else pure ["❌ Tool " ++ toString i ++ " missing required fields"]) ts 0
        | _ => pure ["❌ Tools should be array in " ++ version]
    else pure []
  -- authors (90–93)
  let bA ← pyIn "authors" metadata
  let i3 ← if bA then do
      let v ← pyGetItem metadata "authors"
      let items ← pyIter v
      forIdxM (fun i a =>
        validate_organizational_contact a ("metadata.authors[" ++ toString i ++ "]")) items 0
    else pure []
  -- manufacture / supplier (95–98)
  let bMf ← pyIn "manufacture" metadata
  let i4 ← if bMf then do
      let v ← pyGetItem metadata "manufacture"
      validate_organizational_entity v "metadata.manufacture"
    else pure []
  let bSp ← pyIn "supplier" metadata
  let i5 ← if bSp then do
      let v ← pyGetItem metadata "supplier"
      validate_organizational_entity v "metadata.supplier"
    else pure []
  -- metadata component (100–102)
  let bC ← pyIn "component" metadata
  let i6 ← if bC then do
      let v ← pyGetItem metadata "component"
      validate_component_structure v "metadata.component" version
    else pure []
  -- licenses (104–107)
  let bL ← pyIn "licenses" metadata
  let i7 ← if bL then do
      let v ← pyGetItem metadata "licenses"
      let items ← pyIter v
      forIdxM (fun i lc =>
        validate_license_choice lc ("metadata.licenses[" ++ toString i ++ "]")) items 0
    else pure []
  -- properties (109–111)
  let bP ← pyIn "properties" metadata
  let i8 ← if bP then do
      let v ← pyGetItem metadata "properties"
      validate_properties_array v "metadata.properties"
    else pure []
  -- lifecycles, 1.5+ (113–123)
  let bLc ← pyIn "lifecycles" metadata
  let i9 ← if bLc then
      if pyLt version "1.5" then
        pure ["❌ Lifecycles not available in " ++ version]
      else do
        let v ← pyGetItem metadata "lifecycles"
        let items ← pyIter v
        forIdxM (fun i lc => do
          let bPh ← pyIn "phase" lc
          if !bPh then pure ["❌ Lifecycle " ++ toString i ++ " missing phase"]
          else do
            let p ← pyGetItem lc "phase"
            if pyInList p ["design", "pre-build", "build", "post-build",
                           "operations", "discovery", "decommission"] then pure []
            else pure ["❌ Invalid lifecycle phase: " ++ pyStr p]) items 0
    else pure []
  pure (i1 ++ i2 ++ i3 ++ i4 ++ i5 ++ i6 ++ i7 ++ i8 ++ i9)

/-- Per-component body of the components loop (lines 130–139):
structural validation, then the duplicate-`bom-ref` check against the
running set. -/
def comp_entry (version : String) (i : Nat) (component : JValue)
    (refs : List JValue) : M (List String × List JValue) := do
  let ci ← validate_component_structure component
    ("components[" ++ toString i ++ "]") version
  let bR ← pyIn "bom-ref" component
  if bR then do
    let r ← pyGetItem component "bom-ref"
    if jmem r refs then pure (ci ++ ["❌ Duplicate bom-ref: " ++ pyStr r], refs)
    else pure (ci, refs ++ [r])
  else pure (ci, refs)

/-- Components block (lines 125–139): starts with an empty `bom_refs`
set and collects top-level component refs only. -/
def components_section (data : JValue) (version : String) :
    M (List String × List JValue) := do
  let b ← pyIn "components" data
  if b then do
    let v ← pyGetItem data "components"
    let items ← pyIter v
    forIdxRefsM (comp_entry version) items 0 []
  else pure ([], [])

/-- Metadata-component ref collection (lines 141–144): the ref is added
to the set without any duplicate check. -/
def metadata_ref_section (data : JValue) (refs : List JValue) :
    M (List JValue) := do
  let b1 ← pyIn "metadata" data
  if b1 then do
    let md ← pyGetItem data "metadata"
    let b2 ← pyIn "component" md
    if b2 then do
      let mc ← pyGetItem md "component"
      let b3 ← pyIn "bom-ref" mc
      if b3 then do
        let r ← pyGetItem mc "bom-ref"
        pure (if jmem r refs then refs else refs ++ [r])
      else pure refs
    else pure refs
  else pure refs

/-- Per-service body of the services loop (lines 152–159). -/
def service_entry (i : Nat) (service : JValue) (refs : List JValue) :
    M (List String × List JValue) := do
  let si ← validate_service_structure service ("services[" ++ toString i ++ "]")
  let bR ← pyIn "bom-ref" service
  if bR then do
    let r ← pyGetItem service "bom-ref"
    if jmem r refs then
      pure (si ++ ["❌ Duplicate service bom-ref: " ++ pyStr r], refs)
    else pure (si, refs ++ [r])
  else pure (si, refs)

/-- Services block (lines 148–159). -/
def services_section (data : JValue) (refs : List JValue) :
    M (List String × List JValue) := do
  let b ← pyIn "services" data
  if b then do
    let v ← pyGetItem data "services"
    let items ← pyIter v
    forIdxRefsM service_entry items 0 refs
  else pure ([], refs)

/-- `dependsOn` resolution of one dependency (lines 171–174). -/
def dependsOn_check (refs : List JValue) (i : Nat) (dep : JValue) :
    M (List String) := do
  let b ← pyIn "dependsOn" dep
  if b then do
    let v ← pyGetItem dep "dependsOn"
    let items ← pyIter v
    forIdxM (fun j dr =>
      if jmem dr refs then pure []
      else pure ["❌ Dependency " ++ toString i ++ ".dependsOn[" ++ toString j ++
                 "] '" ++ pyStr dr ++ "' not found"]) items 0
  else pure []

/-- `ref` presence/resolution check of one dependency (lines 166–169). -/
def dep_ref_check (refs : List JValue) (i : Nat) (dep : JValue) :
    M (List String) := do
  let bR ← pyIn "ref" dep
  if !bR then
    pure ["❌ Dependency " ++ toString i ++ " missing required 'ref' field"]
  else do
    let r ← pyGetItem dep "ref"
    if jmem r refs then pure []
    else pure ["❌ Dependency " ++ toString i ++ " ref '" ++ pyStr r ++
               "' not found in bom-refs"]

/-- Per-dependency body of the dependencies loop (lines 165–174). -/
def dep_entry (refs : List JValue) (i : Nat) (dep : JValue) :
    M (List String) := do
  let m1 ← dep_ref_check refs i dep
  let m2 ← dependsOn_check refs i dep
  pure (m1 ++ m2)

/-- Dependencies block (lines 161–174); the collected `bom_refs` set is
read but never extended here. -/
def dependencies_section (data : JValue) (refs : List JValue) :
    M (List String) := do
  let b ← pyIn "dependencies" data
  if b then do
    let v ← pyGetItem data "dependencies"
    let items ← pyIter v
    forIdxM (dep_entry refs) items 0
  else pure []

/-- Compositions block (lines 176–186). -/
def compositions_section (data : JValue) : M (List String) := do
  let b ← pyIn "compositions" data
  if b then do
    let v ← pyGetItem data "compositions"
    let items ← pyIter v
    forIdxM (fun i comp => do
      let bA ← pyIn "aggregate" comp
      if !bA then
        pure ["❌ Composition " ++ toString i ++ " missing required 'aggregate' field"]
      else do
        let a ← pyGetItem comp "aggregate"
        if pyInList a ["complete", "incomplete", "incomplete_first_party_only",
                       "incomplete_third_party_only", "unknown", "not_specified"]
        then pure []
        else pure ["❌ Invalid aggregate type: " ++ pyStr a]) items 0
  else pure []

/-- Vulnerabilities availability block (lines 188–193). -/
def vulnerabilities_section (data : JValue) (version : String) :
    M (List String) := do
  let b ← pyIn "vulnerabilities" data
  if b then
    if pyLt version "1.4" then
      pure ["❌ Vulnerabilities not available in " ++ version]
    else pure []
  else pure []

/-- External references block (lines 195–198). -/
def extrefs_section (data : JValue) : M (List String) := do
  let b ← pyIn "externalReferences" data
  if b then do
    let v ← pyGetItem data "externalReferences"
    let items ← pyIter v
    forIdxM (fun i r =>
      validate_external_reference r ("externalReferences[" ++ toString i ++ "]")) items 0
  else pure []

/-- `validate_complete_cyclonedx_schema` (source lines 9–200): the whole
validation run, returning the `issues` list, or the Python exception that
escapes it. -/
def validate_complete_cyclonedx_schema (data : JValue) (version : String) :
    M (List String) := do
  let i1 ← required_fields_section data
  let i2 ← bomformat_section data
  let i3 ← schema_section data version
  let i4 ← serial_section data
  let i5 ← metadata_section data version
  let (i6, refs1) ← components_section data version
  let refs2 ← metadata_ref_section data refs1
  let (i7, refs3) ← services_section data refs2
  let i8 ← dependencies_section data refs3
  let i9 ← compositions_section data
  let i10 ← vulnerabilities_section data version
  let i11 ← extrefs_section data
  pure (i1 ++ i2 ++ i3 ++ i4 ++ i5 ++ i6 ++ i7 ++ i8 ++ i9 ++ i10 ++ i11)

/-! ### Concrete documents used by the theorems -/

/-- The concrete scenario document of the spec:
`{bomFormat:"CycloneDX", specVersion:"1.3", version:1,`
`metadata:{component:{type:"application",name:"app"}},`
`components:[{type:"library","bom-ref":"lib1","name":"L"}]}`. -/
def c4doc : JValue := .obj [
  ("bomFormat", .str "CycloneDX"),
  ("specVersion", .str "1.3"),
  ("version", .num 1),
  ("metadata", .obj [("component",
     .obj [("type", .str "application"), ("name", .str "app")])]),
  ("components", .arr [.obj [("type", .str "library"),
     ("bom-ref", .str "lib1"), ("name", .str "L")]])]

/-- A 1.3 document whose only duplicate `bom-ref` pair is a top-level
component and a component nested inside it (both `"x"`). -/
def nestedDupDoc : JValue := .obj [
  ("bomFormat", .str "CycloneDX"),
  ("specVersion", .str "1.3"),
  ("version", .num 1),
  ("components", .arr [.obj [
     ("type", .str "library"), ("name", .str "A"), ("version", .str "1"),
     ("bom-ref", .str "x"),
     ("components", .arr [.obj [
        ("type", .str "library"), ("name", .str "B"), ("version", .str "1"),
        ("bom-ref", .str "x")]])]])]

/-- A 1.3 document whose metadata primary component and sole top-level
component share the `bom-ref` `"x"`. -/
def metaDupDoc : JValue := .obj [
  ("bomFormat", .str "CycloneDX"),
  ("specVersion", .str "1.3"),
  ("version", .num 1),
  ("metadata", .obj [("component", .obj [
     ("type", .str "application"), ("name", .str "app"),
     ("version", .str "1"), ("bom-ref", .str "x")])]),
  ("components", .arr [.obj [
     ("type", .str "library"), ("name", .str "A"), ("version", .str "1"),
     ("bom-ref", .str "x")]])]

/-- A 1.3 document with a dependency whose `dependsOn` entry `"inner"`
is declared as the `bom-ref` of a nested component. -/
def nestedRefDoc : JValue := .obj [
  ("bomFormat", .str "CycloneDX"),
  ("specVersion", .str "1.3"),
  ("version", .num 1),
  ("components", .arr [.obj [
     ("type", .str "library"), ("name", .str "A"), ("version", .str "1"),
     ("bom-ref", .str "outer"),
     ("components", .arr [.obj [
        ("type", .str "library"), ("name", .str "B"), ("version", .str "1"),
        ("bom-ref", .str "inner")]])]]),
  ("dependencies", .arr [.obj [("ref", .str "outer"),
     ("dependsOn", .arr [.str "inner"])]])]

/-- Minimal document carrying only the three required fields, with the
given declared spec version. -/
def minDoc (v : String) : JValue := .obj [
  ("bomFormat", .str "CycloneDX"), ("specVersion", .str v), ("version", .num 1)]

/-- A JSON value is a string. -/
def jIsStr : JValue → Bool
  | .str _ => true
  | _ => false

/-- Minimal 1.3 document whose metadata carries only a timestamp. -/
def tsDoc (t : JValue) : JValue := .obj [
  ("bomFormat", .str "CycloneDX"), ("specVersion", .str "1.3"),
  ("version", .num 1), ("metadata", .obj [("timestamp", t)])]

/-- Fields of a 1.3 document with two top-level components sharing the
`bom-ref` `"x"`. -/
def dupPairFields : List (String × JValue) := [
  ("bomFormat", .str "CycloneDX"), ("specVersion", .str "1.3"),
  ("version", .num 1),
  ("components", .arr [
     .obj [("type", .str "library"), ("name", .str "A"),
           ("version", .str "1"), ("bom-ref", .str "x")],
     .obj [("type", .str "library"), ("name", .str "B"),
           ("version", .str "1"), ("bom-ref", .str "x")]])]

/-- Fields of a 1.3 document where a service shares the `bom-ref` `"x"`
with a top-level component. -/
def svcDupFields : List (String × JValue) := [
  ("bomFormat", .str "CycloneDX"), ("specVersion", .str "1.3"),
  ("version", .num 1),
  ("components", .arr [
     .obj [("type", .str "library"), ("name", .str "A"),
           ("version", .str "1"), ("bom-ref", .str "x")]]),
  ("services", .arr [.obj [("name", .str "S"), ("bom-ref", .str "x")]])]

/-- Fields of a 1.3 document whose single dependency resolves `"a"` (a
component) and lists `dependsOn` entries `"s"` (a service, declared
after the components in document order) and `"zz"` (dangling). -/
def depDocFields : List (String × JValue) := [
  ("bomFormat", .str "CycloneDX"), ("specVersion", .str "1.3"),
  ("version", .num 1),
  ("components", .arr [
     .obj [("type", .str "library"), ("name", .str "A"),
           ("version", .str "1"), ("bom-ref", .str "a")]]),
  ("services", .arr [.obj [("name", .str "S"), ("bom-ref", .str "s")]]),
  ("dependencies", .arr [.obj [("ref", .str "a"),
     ("dependsOn", .arr [.str "s", .str "zz"])]])]

end CycloneDX

namespace CycloneDX

/-! ### Generic helper lemmas -/

/-- Bind of a succeeded step in the exception monad. -/
theorem okBind {α β : Type} (x : α) (f : α → M β) :
    (Except.ok x >>= f : M β) = f x := rfl

/-- `pure` in the exception monad is `Except.ok`. -/
theorem pure_eq_ok {α : Type} (x : α) : (pure x : M α) = Except.ok x := rfl

/-- Bind of a raised step in the exception monad. -/
theorem errBind {α β : Type} (e : PyErr) (f : α → M β) :
    ((Except.error e : M α) >>= f) = .error e := rfl

/-- A successful bind factors into a successful step and a successful
continuation. -/
theorem bind_ok_destruct {α β : Type} {e : M α} {f : α → M β} {b : β}
    (h : (e >>= f) = .ok b) : ∃ a, e = .ok a ∧ f a = .ok b := by
  cases e with
  | ok a => exact ⟨a, rfl, h⟩
  | error err => rw [errBind] at h; cases h

/-- Appending different suffixes to the same string gives different
strings. -/
theorem strAppend_ne (p : String) {x y : String} (h : x ≠ y) :
    p ++ x ≠ p ++ y := by
  intro he
  apply h
  have hd := congrArg String.data he
  simp only [String.data_append] at hd
  have hxy := List.append_cancel_left hd
  cases x; cases y; cases hxy; rfl

/-- Membership in a list of string constants, for string values. -/
theorem pyInList_str (a : String) (ss : List String) :
    pyInList (.str a) ss = true ↔ a ∈ ss := by
  have he : ∀ s, jeqStr (.str a) s = (a == s) := fun _ => rfl
  simp [pyInList, he, List.any_eq_true]

/-! ## Claims -/

/-- **C4, counterexample.**  Validating the spec's concrete scenario
document yields two error diagnostics, not exactly one as claimed. -/
theorem c4_two_errors :
    Except.map List.length (validate_complete_cyclonedx_schema c4doc "1.3") =
      .ok 2 := by
  rfl

/-- **C4, amended.**  Validating the concrete scenario document yields
exactly two errors: the metadata primary component is missing the
`version` field required by CycloneDX 1.3, and so is component
`components[0]` (`lib1`). -/
theorem c4_exact_diagnostics :
    validate_complete_cyclonedx_schema c4doc "1.3" =
      .ok ["❌ metadata.component missing required 'version' field in CycloneDX 1.3",
           "❌ components[0] missing required 'version' field in CycloneDX 1.3"] := by
  rfl

/-- **C3, counterexample.**  Validating a minimal document whose declared
version is the unrecognized `"9.9"` produces exactly one diagnostic — the
(string-comparison-gated) missing-`$schema` error — and no dedicated
"unsupported version" diagnostic; a recognized-version policy gate was
applied rather than refused. -/
theorem unrecognized_version_no_dedicated_diagnostic :
    validate_complete_cyclonedx_schema (minDoc "9.9") "9.9" =
      .ok ["❌ Missing $schema field (required in 9.9+)"] := by
  rfl

/-- **C3, amended.**  The validator has no recognized-version set and
never emits an unsupported-version diagnostic: for a minimal document the
outcome is decided purely by string-order comparison of the version —
any version string `≥ "1.4"` (including unrecognized ones such as
`"9.9"`) is required to carry `$schema`, and any version string
`< "1.4"` (including unrecognized ones such as `"1.0"`) passes with no
diagnostics at all. -/
theorem version_policy_is_string_comparison (v : String) :
    (pyGe v "1.4" = true →
      validate_complete_cyclonedx_schema (minDoc v) v =
        .ok ["❌ Missing $schema field (required in " ++ v ++ "+)"]) ∧
    (pyGe v "1.4" = false →
      validate_complete_cyclonedx_schema (minDoc v) v = .ok []) := by
  constructor <;> intro h <;>
    (simp only [validate_complete_cyclonedx_schema, schema_section, h]; rfl)

/-- **C3, witness** for `version_policy_is_string_comparison` at the
unrecognized versions `"2.0"` and `"1.0"`. -/
theorem version_policy_is_string_comparison_witness :
    (pyGe "2.0" "1.4" = true ∧
      validate_complete_cyclonedx_schema (minDoc "2.0") "2.0" =
        .ok ["❌ Missing $schema field (required in 2.0+)"]) ∧
    (pyGe "1.0" "1.4" = false ∧
      validate_complete_cyclonedx_schema (minDoc "1.0") "1.0" = .ok []) :=
  ⟨⟨by decide, (version_policy_is_string_comparison "2.0").1 (by decide)⟩,
   ⟨by decide, (version_policy_is_string_comparison "1.0").2 (by decide)⟩⟩

/-- Auxiliary evaluation of the metadata block on a document whose
metadata holds only a string timestamp: the outcome is decided exactly by
`datetime.fromisoformat` applied after the `Z` replacement. -/
theorem metadata_section_tsDoc (s : String) :
    metadata_section (tsDoc (.str s)) "1.3" =
      .ok (if fromisoformatOk (pyReplaceZ s) then []
           else ["❌ Invalid ISO 8601 timestamp format"]) := by
  simp only [metadata_section,
    show pyGetD (tsDoc (.str s)) "metadata" (.obj []) =
      .ok (.obj [("timestamp", .str s)]) from rfl,
    okBind,
    show pyIn "timestamp" (.obj [("timestamp", JValue.str s)]) = .ok true from rfl,
    show pyGetItem (.obj [("timestamp", JValue.str s)]) "timestamp" =
      .ok (.str s) from rfl,
    show pyStrMethod (.str s) = .ok s from rfl,
    reduceIte]
  cases h : fromisoformatOk (pyReplaceZ s) <;> rfl

/-- **C7, counterexample.**  The timestamp `"2023-01-01T00:00:00"` has no
timezone offset and no `Z` suffix, yet validation accepts it with zero
diagnostics — the timestamp check does not require a timezone
designator. -/
theorem naive_timestamp_accepted :
    validate_complete_cyclonedx_schema
      (tsDoc (.str "2023-01-01T00:00:00")) "1.3" = .ok [] := by
  rfl

/-- **C7, amended.**  For every metadata timestamp string, the check
accepts it exactly when `datetime.fromisoformat` (CPython 3.7–3.10
grammar) succeeds on the string after replacing `Z` with `+00:00`; a
timezone designator is optional, and a string that fails to parse yields
the invalid-timestamp diagnostic. -/
theorem timestamp_check_is_fromisoformat (s : String) :
    validate_complete_cyclonedx_schema (tsDoc (.str s)) "1.3" =
      .ok (if fromisoformatOk (pyReplaceZ s) then []
           else ["❌ Invalid ISO 8601 timestamp format"]) := by
  simp only [validate_complete_cyclonedx_schema,
    show required_fields_section (tsDoc (.str s)) = .ok [] from rfl,
    show bomformat_section (tsDoc (.str s)) = .ok [] from rfl,
    show schema_section (tsDoc (.str s)) "1.3" = .ok [] from rfl,
    show serial_section (tsDoc (.str s)) = .ok [] from rfl,
    metadata_section_tsDoc,
    show components_section (tsDoc (.str s)) "1.3" = .ok ([], []) from rfl,
    show ∀ refs, metadata_ref_section (tsDoc (.str s)) refs = .ok refs from
      fun _ => rfl,
    show ∀ refs, services_section (tsDoc (.str s)) refs = .ok ([], refs) from
      fun _ => rfl,
    show ∀ refs, dependencies_section (tsDoc (.str s)) refs = .ok [] from
      fun _ => rfl,
    show compositions_section (tsDoc (.str s)) = .ok [] from rfl,
    show vulnerabilities_section (tsDoc (.str s)) "1.3" = .ok [] from rfl,
    show extrefs_section (tsDoc (.str s)) = .ok [] from rfl,
    okBind]
  cases h : fromisoformatOk (pyReplaceZ s) <;> rfl

/-- **C8, counterexample.**  A document with a non-string metadata
timestamp makes validation raise `AttributeError` (from
`metadata["timestamp"].replace`), which the validator does not catch:
bad input data is not always reported as diagnostics. -/
theorem nonstring_timestamp_raises :
    validate_complete_cyclonedx_schema (tsDoc (.num 123)) "1.3" =
      .error .attributeError := by
  rfl

/-- **C8, amended.**  The core does raise for badly-shaped input data:
for every non-string metadata timestamp value, validation escapes with
`AttributeError` instead of producing diagnostics (the `try` at source
line 61 catches only `ValueError`). -/
theorem nonstring_timestamp_always_raises (v : JValue)
    (hv : jIsStr v = false) :
    validate_complete_cyclonedx_schema (tsDoc v) "1.3" =
      .error .attributeError := by
  cases v with
  | str s => simp [jIsStr] at hv
  | null => rfl
  | bool b => rfl
  | num n => rfl
  | arr xs => rfl
  | obj fs => rfl

/-- **C8, witness** for `nonstring_timestamp_always_raises` at the
boolean timestamp `true`. -/
theorem nonstring_timestamp_always_raises_witness :
    jIsStr (.bool true) = false ∧
      validate_complete_cyclonedx_schema (tsDoc (.bool true)) "1.3" =
        .error .attributeError :=
  ⟨by decide, nonstring_timestamp_always_raises (.bool true) (by decide)⟩

/-! ### Hash object checks (C5, C10) -/

/-- A string matched by `^[a-fA-F0-9]{n}$` contains exactly `n` hex
digits. -/
theorem hexcount_of_hashCore {n : Nat} {cs : List Char}
    (h : hashCore n cs = true) : (cs.filter isHexC).length = n := by
  unfold hashCore at h
  rw [Bool.and_eq_true] at h
  obtain ⟨h1, h2⟩ := h
  rw [List.all_eq_true] at h2
  rw [List.filter_eq_self.mpr h2]
  exact eq_of_beq h1

/-- A string whose hex-digit count is not `n` fails
`re.match(r'^[a-fA-F0-9]{n}$', ·)` (also through the trailing-newline
quirk of `$`, since a newline is not a hex digit). -/
theorem pyDollar_hashCore_false {n : Nat} {s : String}
    (h : (s.data.filter isHexC).length ≠ n) :
    pyDollar (hashCore n) s = false := by
  cases hd : pyDollar (hashCore n) s
  · rfl
  · exfalso
    unfold pyDollar at hd
    rw [Bool.or_eq_true] at hd
    rcases hd with h1 | h2
    · exact h (hexcount_of_hashCore h1)
    · rw [Bool.and_eq_true] at h2
      obtain ⟨hl, hc⟩ := h2
      have hlast : s.data.getLast? = some '\n' := eq_of_beq hl
      have hne : s.data ≠ [] := by
        intro he; rw [he] at hlast; cases hlast
      have hfil : s.data.filter isHexC = s.data.dropLast.filter isHexC := by
        conv_lhs => rw [← List.dropLast_append_getLast hne]
        rw [List.filter_append]
        have hg : s.data.getLast hne = '\n' := by
          have hq := List.getLast?_eq_getLast s.data hne
          rw [hlast] at hq
          exact (Option.some_injective _ hq).symm
        rw [hg]
        simp [isHexC]
      rw [hfil] at h
      exact h (hexcount_of_hashCore hc)

/-- **C5.**  The dispatch table maps the twelve algorithms to exactly the
claimed hex-digit lengths; for every algorithm in the closed set, a hash
object whose content string has a different hex-digit count yields
exactly one error naming the hash field's path; and an algorithm outside
the set yields exactly the invalid-algorithm error. -/
theorem hash_algorithm_content_checks :
    (hashLen "MD5" = 32 ∧ hashLen "SHA-1" = 40 ∧ hashLen "SHA-256" = 64 ∧
     hashLen "SHA-384" = 96 ∧ hashLen "SHA-512" = 128 ∧
     hashLen "SHA3-256" = 64 ∧ hashLen "SHA3-384" = 96 ∧
     hashLen "SHA3-512" = 128 ∧ hashLen "BLAKE2b-256" = 64 ∧
     hashLen "BLAKE2b-384" = 96 ∧ hashLen "BLAKE2b-512" = 128 ∧
     hashLen "BLAKE3" = 64) ∧
    (∀ (a content path : String), a ∈ valid_algorithms →
      (content.data.filter isHexC).length ≠ hashLen a →
      validate_hash_object
          (.obj [("alg", .str a), ("content", .str content)]) path =
        .ok ["❌ " ++ path ++ " invalid " ++ a ++ " hash content format"]) ∧
    (∀ (a content path : String), a ∉ valid_algorithms →
      validate_hash_object
          (.obj [("alg", .str a), ("content", .str content)]) path =
        .ok ["❌ " ++ path ++ " invalid algorithm: " ++ a]) := by
  refine ⟨by decide, ?_, ?_⟩
  · intro a content path hmem hlen
    have h1 : pyInList (.str a) valid_algorithms = true :=
      (pyInList_str a _).mpr hmem
    have h2 : pyDollar (hashCore (hashLen a)) content = false :=
      pyDollar_hashCore_false hlen
    simp only [validate_hash_object,
      show pyIn "alg" (JValue.obj [("alg", .str a), ("content", .str content)]) =
        .ok true from rfl,
      show hash_missing_check true
          (JValue.obj [("alg", .str a), ("content", .str content)]) =
        .ok false from rfl,
      show pyGetItem (JValue.obj [("alg", .str a), ("content", .str content)]) "alg" =
        .ok (.str a) from rfl,
      show pyGetItem (JValue.obj [("alg", .str a), ("content", .str content)]) "content" =
        .ok (.str content) from rfl,
      show reArg (JValue.str content) = .ok content from rfl,
      okBind, h1, h2, Bool.not_true, Bool.not_false, reduceIte]
    rfl
  · intro a content path hnot
    have h1 : pyInList (.str a) valid_algorithms = false := by
      cases hb : pyInList (.str a) valid_algorithms
      · rfl
      · exact absurd ((pyInList_str a _).mp hb) hnot
    simp only [validate_hash_object,
      show pyIn "alg" (JValue.obj [("alg", .str a), ("content", .str content)]) =
        .ok true from rfl,
      show hash_missing_check true
          (JValue.obj [("alg", .str a), ("content", .str content)]) =
        .ok false from rfl,
      show pyGetItem (JValue.obj [("alg", .str a), ("content", .str content)]) "alg" =
        .ok (.str a) from rfl,
      show pyGetItem (JValue.obj [("alg", .str a), ("content", .str content)]) "content" =
        .ok (.str content) from rfl,
      show pyStr (JValue.str a) = a from rfl,
      okBind, h1, Bool.not_true, Bool.not_false, reduceIte]
    rfl

/-- **C5, witness** at `MD5` with the 3-hex-digit content `"abc"` and at
the non-algorithm `"FOO"`. -/
theorem hash_algorithm_content_checks_witness :
    ("MD5" ∈ valid_algorithms ∧
     ("abc".data.filter isHexC).length ≠ hashLen "MD5" ∧
     validate_hash_object
        (.obj [("alg", .str "MD5"), ("content", .str "abc")]) "p" =
       .ok ["❌ p invalid MD5 hash content format"]) ∧
    ("FOO" ∉ valid_algorithms ∧
     validate_hash_object
        (.obj [("alg", .str "FOO"), ("content", .str "abc")]) "p" =
       .ok ["❌ p invalid algorithm: FOO"]) :=
  ⟨⟨by decide, by decide,
    hash_algorithm_content_checks.2.1 "MD5" "abc" "p" (by decide) (by decide)⟩,
   ⟨by decide,
    hash_algorithm_content_checks.2.2 "FOO" "abc" "p" (by decide)⟩⟩

/-- **C10.**  A hash object missing `alg` or `content` yields exactly the
one combined missing-fields diagnostic (no algorithm or content check
runs); a present-but-invalid algorithm yields exactly the one
invalid-algorithm diagnostic with the content value never inspected; and
a hash object never yields more than one diagnostic. -/
theorem hash_object_short_circuit :
    (∀ (h : JValue) (path : String),
      (pyIn "alg" h = .ok false ∨
        (pyIn "alg" h = .ok true ∧ pyIn "content" h = .ok false)) →
      validate_hash_object h path =
        .ok ["❌ " ++ path ++ " missing required fields (alg, content)"]) ∧
    (∀ (h : JValue) (path : String) (algv contentv : JValue),
      pyIn "alg" h = .ok true → pyIn "content" h = .ok true →
      pyGetItem h "alg" = .ok algv → pyGetItem h "content" = .ok contentv →
      pyInList algv valid_algorithms = false →
      validate_hash_object h path =
        .ok ["❌ " ++ path ++ " invalid algorithm: " ++ pyStr algv]) ∧
    (∀ (h : JValue) (path : String) (issues : List String),
      validate_hash_object h path = .ok issues → issues.length ≤ 1) := by
  refine ⟨?_, ?_, ?_⟩
  · intro h path hcase
    rcases hcase with h1 | ⟨h1, h2⟩
    · simp only [validate_hash_object, hash_missing_check, h1, okBind,
        Bool.not_false, Bool.not_true, reduceIte]
      rfl
    · simp only [validate_hash_object, hash_missing_check, h1, h2, okBind,
        Bool.not_false, Bool.not_true, reduceIte]
      rfl
  · intro h path algv contentv h1 h2 h3 h4 h5
    simp only [validate_hash_object, hash_missing_check, h1, h2, h3, h4, h5,
      okBind, Bool.not_false, Bool.not_true, reduceIte]
    rfl
  · intro h path issues hok
    unfold validate_hash_object at hok
    obtain ⟨bAlg, hbAlg, hok⟩ := bind_ok_destruct hok
    obtain ⟨missing, hmiss, hok⟩ := bind_ok_destruct hok
    split at hok
    · simp only [pure_eq_ok, Except.ok.injEq] at hok
      rw [← hok]; simp
    · obtain ⟨alg, halg, hok⟩ := bind_ok_destruct hok
      obtain ⟨content, hcontent, hok⟩ := bind_ok_destruct hok
      split at hok
      · simp only [pure_eq_ok, Except.ok.injEq] at hok
        rw [← hok]; simp
      · split at hok
        · obtain ⟨s, hs, hok⟩ := bind_ok_destruct hok
          split at hok
          · simp only [pure_eq_ok, Except.ok.injEq] at hok
            rw [← hok]; simp
          · simp only [pure_eq_ok, Except.ok.injEq] at hok
            rw [← hok]; simp
        · exact Except.noConfusion hok

/-! ### License choice checks (C6) -/

/-- The `has_license` sub-check can only yield no message or the
id-or-name message. -/
theorem license_id_name_check_sub {b : Bool} {lc : JValue} {path : String}
    {v : List String} (h : license_id_name_check b lc path = .ok v) :
    v = [] ∨ v = ["❌ " ++ path ++ ".license must have either 'id' or 'name'"] := by
  unfold license_id_name_check at h
  split at h
  · obtain ⟨lo, _, h⟩ := bind_ok_destruct h
    obtain ⟨hid, _, h⟩ := bind_ok_destruct h
    obtain ⟨hname, _, h⟩ := bind_ok_destruct h
    split at h
    · rw [pure_eq_ok, Except.ok.injEq] at h
      exact Or.inr h.symm
    · rw [pure_eq_ok, Except.ok.injEq] at h
      exact Or.inl h.symm
  · rw [pure_eq_ok, Except.ok.injEq] at h
    exact Or.inl h.symm

/-- The `has_expression` sub-check can only yield no message or the
SPDX-format message. -/
theorem expression_format_check_sub {b : Bool} {lc : JValue} {path : String}
    {v : List String} (h : expression_format_check b lc path = .ok v) :
    v = [] ∨ v = ["❌ " ++ path ++ ".expression may be invalid SPDX format"] := by
  unfold expression_format_check at h
  split at h
  · obtain ⟨expr, _, h⟩ := bind_ok_destruct h
    obtain ⟨anyOp, _, h⟩ := bind_ok_destruct h
    obtain ⟨okExpr, _, h⟩ := bind_ok_destruct h
    split at h
    · rw [pure_eq_ok, Except.ok.injEq] at h
      exact Or.inl h.symm
    · rw [pure_eq_ok, Except.ok.injEq] at h
      exact Or.inr h.symm
  · rw [pure_eq_ok, Except.ok.injEq] at h
    exact Or.inl h.symm

/-- A message with one suffix does not occur in a sub-check result that
can only hold the message with a different suffix. -/
theorem not_mem_of_sub {p sfx sfx2 : String} {v : List String}
    (hsub : v = [] ∨ v = [p ++ sfx2]) (hne : sfx ≠ sfx2) : (p ++ sfx) ∉ v := by
  rcases hsub with rfl | rfl
  · exact List.not_mem_nil _
  · intro hm
    rw [List.mem_singleton] at hm
    exact strAppend_ne p hne hm

/-- **C6.**  For every LicenseChoice value: with both `license` and
`expression` present the both-set error is among the diagnostics; with
neither present the result is exactly the neither-set error; and with
exactly one of the two present neither of those two exactly-one-of
errors is produced. -/
theorem license_choice_exactly_one (lc : JValue) (path : String) :
    (∀ issues, pyIn "license" lc = .ok true → pyIn "expression" lc = .ok true →
      validate_license_choice lc path = .ok issues →
      ("❌ " ++ path ++ " cannot have both 'license' and 'expression'") ∈ issues) ∧
    (pyIn "license" lc = .ok false → pyIn "expression" lc = .ok false →
      validate_license_choice lc path =
        .ok ["❌ " ++ path ++ " must have either 'license' or 'expression'"]) ∧
    (∀ issues (bl be : Bool), pyIn "license" lc = .ok bl →
      pyIn "expression" lc = .ok be → bl ≠ be →
      validate_license_choice lc path = .ok issues →
      ("❌ " ++ path ++ " cannot have both 'license' and 'expression'") ∉ issues ∧
      ("❌ " ++ path ++ " must have either 'license' or 'expression'") ∉ issues) := by
  refine ⟨?_, ?_, ?_⟩
  · intro issues h1 h2 hok
    simp only [validate_license_choice, h1, h2, okBind, Bool.not_true,
      Bool.and_self, Bool.false_and, Bool.and_false, reduceIte] at hok
    obtain ⟨v2, hv2, hok⟩ := bind_ok_destruct hok
    obtain ⟨v3, hv3, hok⟩ := bind_ok_destruct hok
    rw [pure_eq_ok, Except.ok.injEq] at hok
    rw [← hok]
    simp
  · intro h1 h2
    simp only [validate_license_choice, h1, h2, okBind, Bool.not_false,
      Bool.and_self, reduceIte,
      show license_id_name_check false lc path = .ok [] from rfl,
      show expression_format_check false lc path = .ok [] from rfl]
    rfl
  · intro issues bl be h1 h2 hne hok
    cases bl <;> cases be
    · exact absurd rfl hne
    · -- license absent, expression present
      simp only [validate_license_choice, h1, h2, okBind, Bool.not_false,
        Bool.not_true, Bool.and_false, Bool.false_and, reduceIte,
        show license_id_name_check false lc path = .ok [] from rfl] at hok
      obtain ⟨v3, hv3, hok⟩ := bind_ok_destruct hok
      rw [pure_eq_ok, Except.ok.injEq] at hok
      rw [← hok]
      have hsub := expression_format_check_sub hv3
      refine ⟨?_, ?_⟩ <;> exact not_mem_of_sub hsub (by decide)
    · -- license present, expression absent
      simp only [validate_license_choice, h1, h2, okBind, Bool.not_false,
        Bool.not_true, Bool.and_false, Bool.false_and, reduceIte,
        show expression_format_check false lc path = .ok [] from rfl] at hok
      obtain ⟨v2, hv2, hok⟩ := bind_ok_destruct hok
      rw [pure_eq_ok, Except.ok.injEq] at hok
      rw [← hok]
      have hsub := license_id_name_check_sub hv2
      refine ⟨?_, ?_⟩ <;>
        (rw [List.append_nil]; exact not_mem_of_sub hsub (by decide))
    · exact absurd rfl hne

/-- **C6, witness** at concrete license choices: both set, neither set,
and exactly one set (each way). -/
theorem license_choice_exactly_one_witness :
    ("❌ p cannot have both 'license' and 'expression'") ∈
      ["❌ p cannot have both 'license' and 'expression'"] ∧
    validate_license_choice (.obj []) "p" =
      .ok ["❌ p must have either 'license' or 'expression'"] ∧
    (("❌ p cannot have both 'license' and 'expression'") ∉ ([] : List String) ∧
     ("❌ p must have either 'license' or 'expression'") ∉ ([] : List String)) ∧
    (("❌ p cannot have both 'license' and 'expression'") ∉ ([] : List String) ∧
     ("❌ p must have either 'license' or 'expression'") ∉ ([] : List String)) :=
  ⟨(license_choice_exactly_one
      (.obj [("license", .obj [("id", .str "MIT")]), ("expression", .str "MIT")])
      "p").1
      ["❌ p cannot have both 'license' and 'expression'"]
      (by rfl) (by rfl) (by rfl),
   (license_choice_exactly_one (.obj []) "p").2.1 (by rfl) (by rfl),
   (license_choice_exactly_one (.obj [("license", .obj [("id", .str "MIT")])])
      "p").2.2 [] true false (by rfl) (by rfl) (by decide) (by rfl),
   (license_choice_exactly_one (.obj [("expression", .str "MIT OR GPL-2.0")])
      "p").2.2 [] false true (by rfl) (by rfl) (by decide) (by rfl)⟩

/-! ### Reference-set lemmas (C1, C2) -/

mutual
/-- Python `==` is reflexive on parsed JSON values. -/
theorem jeq_refl : (v : JValue) → jeq v v = true
  | .null => rfl
  | .bool b => by simp [jeq]
  | .num n => by simp [jeq]
  | .str s => by simp [jeq]
  | .arr xs => by simp [jeq, jeqL_refl xs]
  | .obj fs => by simp [jeq, jeqF_refl fs]

/-- Reflexivity of elementwise `==`. -/
theorem jeqL_refl : (xs : List JValue) → jeqL xs xs = true
  | [] => rfl
  | x :: xs => by simp [jeqL, jeq_refl x, jeqL_refl xs]

/-- Reflexivity of fieldwise `==`. -/
theorem jeqF_refl : (fs : List (String × JValue)) → jeqF fs fs = true
  | [] => rfl
  | (k, v) :: fs => by simp [jeqF, jeq_refl v, jeqF_refl fs]
end

/-- Membership in the `bom_refs` set is preserved by adding entries. -/
theorem jmem_append_right {r : JValue} {refs l : List JValue}
    (h : jmem r refs = true) : jmem r (refs ++ l) = true := by
  unfold jmem at *
  rw [List.any_append, h]
  rfl

/-- A value just added to the `bom_refs` set is a member. -/
theorem jmem_self_append (r : JValue) (refs : List JValue) :
    jmem r (refs ++ [r]) = true := by
  unfold jmem
  rw [List.any_append]
  simp [jeq_refl r]

/-- A key bound in an object is found by Python's `in`. -/
theorem pyIn_of_jfind {fs : List (String × JValue)} {k : String} {v : JValue}
    (h : jfind fs k = some v) : pyIn k (.obj fs) = .ok true := by
  have ha : fs.any (fun p => p.1 == k) = true := by
    unfold jfind at h
    rw [Option.map_eq_some'] at h
    obtain ⟨p, hp, _⟩ := h
    rw [List.any_eq_true]
    refine ⟨p, List.mem_of_find?_eq_some hp, ?_⟩
    exact @List.find?_some _ (fun q : String × JValue => q.1 == k) p fs hp
  show Except.ok (fs.any (fun p => p.1 == k)) = Except.ok true
  rw [ha]

/-- A key bound in an object is returned by Python's subscript. -/
theorem pyGetItem_of_jfind {fs : List (String × JValue)} {k : String}
    {v : JValue} (h : jfind fs k = some v) :
    pyGetItem (.obj fs) k = .ok v := by
  show (match jfind fs k with
        | some v => (Except.ok v : M JValue)
        | none => Except.error PyErr.keyError) = Except.ok v
  rw [h]

/-- One step of the components loop never removes collected refs. -/
theorem comp_entry_refs_mono {version : String} {i : Nat} {c : JValue}
    {refs : List JValue} {d : List String} {refs' : List JValue}
    (h : comp_entry version i c refs = .ok (d, refs'))
    {r : JValue} (hr : jmem r refs = true) : jmem r refs' = true := by
  unfold comp_entry at h
  obtain ⟨ci, _, h⟩ := bind_ok_destruct h
  obtain ⟨bR, _, h⟩ := bind_ok_destruct h
  split at h
  · obtain ⟨r2, _, h⟩ := bind_ok_destruct h
    split at h
    · rw [pure_eq_ok, Except.ok.injEq, Prod.mk.injEq] at h
      rw [← h.2]; exact hr
    · rw [pure_eq_ok, Except.ok.injEq, Prod.mk.injEq] at h
      rw [← h.2]; exact jmem_append_right hr
  · rw [pure_eq_ok, Except.ok.injEq, Prod.mk.injEq] at h
    rw [← h.2]; exact hr

/-- After one step of the components loop on a component that carries a
`bom-ref`, that ref is in the collected set. -/
theorem comp_entry_collect {version : String} {i : Nat} {c : JValue}
    {refs : List JValue} {d : List String} {refs' : List JValue} {r : JValue}
    (h : comp_entry version i c refs = .ok (d, refs'))
    (hb : pyIn "bom-ref" c = .ok true)
    (hg : pyGetItem c "bom-ref" = .ok r) : jmem r refs' = true := by
  unfold comp_entry at h
  obtain ⟨ci, _, h⟩ := bind_ok_destruct h
  obtain ⟨bR, hbR, h⟩ := bind_ok_destruct h
  rw [hb] at hbR
  injection hbR with e
  subst e
  split at h
  · obtain ⟨r2, hr2, h⟩ := bind_ok_destruct h
    rw [hg] at hr2
    injection hr2 with e2
    subst e2
    split at h
    next hcond =>
      rw [pure_eq_ok, Except.ok.injEq, Prod.mk.injEq] at h
      rw [← h.2]; exact hcond
    next =>
      rw [pure_eq_ok, Except.ok.injEq, Prod.mk.injEq] at h
      rw [← h.2]; exact jmem_self_append r refs
  · next hcond => exact absurd rfl hcond

/-- One step of the components loop on a component whose `bom-ref` is
already in the collected set emits the duplicate diagnostic. -/
theorem comp_entry_dup {version : String} {i : Nat} {c : JValue}
    {refs : List JValue} {d : List String} {refs' : List JValue} {r : JValue}
    (h : comp_entry version i c refs = .ok (d, refs'))
    (hb : pyIn "bom-ref" c = .ok true)
    (hg : pyGetItem c "bom-ref" = .ok r)
    (hm : jmem r refs = true) :
    ("❌ Duplicate bom-ref: " ++ pyStr r) ∈ d := by
  unfold comp_entry at h
  obtain ⟨ci, _, h⟩ := bind_ok_destruct h
  obtain ⟨bR, hbR, h⟩ := bind_ok_destruct h
  rw [hb] at hbR
  injection hbR with e
  subst e
  split at h
  · obtain ⟨r2, hr2, h⟩ := bind_ok_destruct h
    rw [hg] at hr2
    injection hr2 with e2
    subst e2
    split at h
    next =>
      rw [pure_eq_ok, Except.ok.injEq, Prod.mk.injEq] at h
      rw [← h.1]
      simp
    next hcond => exact absurd hm hcond
  · next hcond => exact absurd rfl hcond

/-- One step of the services loop never removes collected refs. -/
theorem service_entry_refs_mono {i : Nat} {c : JValue}
    {refs : List JValue} {d : List String} {refs' : List JValue}
    (h : service_entry i c refs = .ok (d, refs'))
    {r : JValue} (hr : jmem r refs = true) : jmem r refs' = true := by
  unfold service_entry at h
  obtain ⟨si, _, h⟩ := bind_ok_destruct h
  obtain ⟨bR, _, h⟩ := bind_ok_destruct h
  split at h
  · obtain ⟨r2, _, h⟩ := bind_ok_destruct h
    split at h
    · rw [pure_eq_ok, Except.ok.injEq, Prod.mk.injEq] at h
      rw [← h.2]; exact hr
    · rw [pure_eq_ok, Except.ok.injEq, Prod.mk.injEq] at h
      rw [← h.2]; exact jmem_append_right hr
  · rw [pure_eq_ok, Except.ok.injEq, Prod.mk.injEq] at h
    rw [← h.2]; exact hr

/-- One step of the services loop on a service whose `bom-ref` is
already collected emits the duplicate-service diagnostic. -/
theorem service_entry_dup {i : Nat} {c : JValue}
    {refs : List JValue} {d : List String} {refs' : List JValue} {r : JValue}
    (h : service_entry i c refs = .ok (d, refs'))
    (hb : pyIn "bom-ref" c = .ok true)
    (hg : pyGetItem c "bom-ref" = .ok r)
    (hm : jmem r refs = true) :
    ("❌ Duplicate service bom-ref: " ++ pyStr r) ∈ d := by
  unfold service_entry at h
  obtain ⟨si, _, h⟩ := bind_ok_destruct h
  obtain ⟨bR, hbR, h⟩ := bind_ok_destruct h
  rw [hb] at hbR
  injection hbR with e
  subst e
  split at h
  · obtain ⟨r2, hr2, h⟩ := bind_ok_destruct h
    rw [hg] at hr2
    injection hr2 with e2
    subst e2
    split at h
    next =>
      rw [pure_eq_ok, Except.ok.injEq, Prod.mk.injEq] at h
      rw [← h.1]
      simp
    next hcond => exact absurd hm hcond
  · next hcond => exact absurd rfl hcond

/-- The components loop never removes collected refs. -/
theorem comp_loop_refs_mono {version : String} :
    ∀ (xs : List JValue) (i0 : Nat) (refs0 : List JValue) {d : List String}
      {refs1 : List JValue} {r : JValue},
      forIdxRefsM (comp_entry version) xs i0 refs0 = .ok (d, refs1) →
      jmem r refs0 = true → jmem r refs1 = true := by
  intro xs
  induction xs with
  | nil =>
      intro i0 refs0 d refs1 r h hr
      unfold forIdxRefsM at h
      rw [Except.ok.injEq, Prod.mk.injEq] at h
      rw [← h.2]; exact hr
  | cons x rest ih =>
      intro i0 refs0 d refs1 r h hr
      unfold forIdxRefsM at h
      obtain ⟨p1, hp1, h⟩ := bind_ok_destruct h
      obtain ⟨a, refs'⟩ := p1
      obtain ⟨p2, hp2, h⟩ := bind_ok_destruct h
      obtain ⟨b, refs''⟩ := p2
      rw [Except.ok.injEq, Prod.mk.injEq] at h
      rw [← h.2]
      exact ih _ _ hp2 (comp_entry_refs_mono hp1 hr)

/-- After the components loop, the `bom-ref` of every processed
component that carries one is collected. -/
theorem comp_loop_collect {version : String} :
    ∀ (xs : List JValue) (k i0 : Nat) (refs0 : List JValue) {d : List String}
      {refs1 : List JValue} {c r : JValue},
      xs.get? k = some c →
      pyIn "bom-ref" c = .ok true → pyGetItem c "bom-ref" = .ok r →
      forIdxRefsM (comp_entry version) xs i0 refs0 = .ok (d, refs1) →
      jmem r refs1 = true := by
  intro xs
  induction xs with
  | nil => intro k i0 refs0 d refs1 c r hget; cases hget
  | cons x rest ih =>
      intro k i0 refs0 d refs1 c r hget hb hg h
      unfold forIdxRefsM at h
      obtain ⟨p1, hp1, h⟩ := bind_ok_destruct h
      obtain ⟨a, refs'⟩ := p1
      obtain ⟨p2, hp2, h⟩ := bind_ok_destruct h
      obtain ⟨b, refs''⟩ := p2
      rw [Except.ok.injEq, Prod.mk.injEq] at h
      cases k with
      | zero =>
          rw [List.get?_cons_zero] at hget
          injection hget with e
          subst e
          rw [← h.2]
          exact comp_loop_refs_mono rest _ _ hp2 (comp_entry_collect hp1 hb hg)
      | succ k2 =>
          rw [List.get?_cons_succ] at hget
          rw [← h.2]
          exact ih k2 _ _ hget hb hg hp2

/-- If a ref is already collected when the components loop starts and a
later component carries the same ref, the duplicate diagnostic is among
the loop's messages. -/
theorem comp_loop_dup {version : String} :
    ∀ (xs : List JValue) (k i0 : Nat) (refs0 : List JValue) {d : List String}
      {refs1 : List JValue} {c r : JValue},
      xs.get? k = some c →
      pyIn "bom-ref" c = .ok true → pyGetItem c "bom-ref" = .ok r →
      jmem r refs0 = true →
      forIdxRefsM (comp_entry version) xs i0 refs0 = .ok (d, refs1) →
      ("❌ Duplicate bom-ref: " ++ pyStr r) ∈ d := by
  intro xs
  induction xs with
  | nil => intro k i0 refs0 d refs1 c r hget; cases hget
  | cons x rest ih =>
      intro k i0 refs0 d refs1 c r hget hb hg hm h
      unfold forIdxRefsM at h
      obtain ⟨p1, hp1, h⟩ := bind_ok_destruct h
      obtain ⟨a, refs'⟩ := p1
      obtain ⟨p2, hp2, h⟩ := bind_ok_destruct h
      obtain ⟨b, refs''⟩ := p2
      rw [Except.ok.injEq, Prod.mk.injEq] at h
      cases k with
      | zero =>
          rw [List.get?_cons_zero] at hget
          injection hget with e
          subst e
          rw [← h.1]
          exact List.mem_append_left _ (comp_entry_dup hp1 hb hg hm)
      | succ k2 =>
          rw [List.get?_cons_succ] at hget
          rw [← h.1]
          exact List.mem_append_right _
            (ih k2 _ _ hget hb hg (comp_entry_refs_mono hp1 hm) hp2)

/-- Two components at different positions of the loop carrying the same
`bom-ref` produce the duplicate diagnostic. -/
theorem comp_loop_pair {version : String} :
    ∀ (xs : List JValue) (i j i0 : Nat) (refs0 : List JValue)
      {d : List String} {refs1 : List JValue} {ci cj r : JValue},
      i < j → xs.get? i = some ci → xs.get? j = some cj →
      pyIn "bom-ref" ci = .ok true → pyGetItem ci "bom-ref" = .ok r →
      pyIn "bom-ref" cj = .ok true → pyGetItem cj "bom-ref" = .ok r →
      forIdxRefsM (comp_entry version) xs i0 refs0 = .ok (d, refs1) →
      ("❌ Duplicate bom-ref: " ++ pyStr r) ∈ d := by
  intro xs
  induction xs with
  | nil => intro i j i0 refs0 d refs1 ci cj r _ hgeti; cases hgeti
  | cons x rest ih =>
      intro i j i0 refs0 d refs1 ci cj r hij hgeti hgetj hbi hgi hbj hgj h
      unfold forIdxRefsM at h
      obtain ⟨p1, hp1, h⟩ := bind_ok_destruct h
      obtain ⟨a, refs'⟩ := p1
      obtain ⟨p2, hp2, h⟩ := bind_ok_destruct h
      obtain ⟨b, refs''⟩ := p2
      rw [Except.ok.injEq, Prod.mk.injEq] at h
      cases i with
      | zero =>
          rw [List.get?_cons_zero] at hgeti
          injection hgeti with e
          subst e
          obtain ⟨j2, rfl⟩ : ∃ j2, j = j2 + 1 := by
            cases j with
            | zero => exact absurd hij (by omega)
            | succ j2 => exact ⟨j2, rfl⟩
          rw [List.get?_cons_succ] at hgetj
          rw [← h.1]
          exact List.mem_append_right _
            (comp_loop_dup rest j2 _ _ hgetj hbj hgj
              (comp_entry_collect hp1 hbi hgi) hp2)
      | succ i2 =>
          obtain ⟨j2, rfl⟩ : ∃ j2, j = j2 + 1 := by
            cases j with
            | zero => exact absurd hij (by omega)
            | succ j2 => exact ⟨j2, rfl⟩
          rw [List.get?_cons_succ] at hgeti hgetj
          rw [← h.1]
          exact List.mem_append_right _
            (ih i2 j2 _ _ (by omega) hgeti hgetj hbi hgi hbj hgj hp2)

/-- The services loop never removes collected refs. -/
theorem service_loop_refs_mono :
    ∀ (xs : List JValue) (i0 : Nat) (refs0 : List JValue) {d : List String}
      {refs1 : List JValue} {r : JValue},
      forIdxRefsM service_entry xs i0 refs0 = .ok (d, refs1) →
      jmem r refs0 = true → jmem r refs1 = true := by
  intro xs
  induction xs with
  | nil =>
      intro i0 refs0 d refs1 r h hr
      unfold forIdxRefsM at h
      rw [Except.ok.injEq, Prod.mk.injEq] at h
      rw [← h.2]; exact hr
  | cons x rest ih =>
      intro i0 refs0 d refs1 r h hr
      unfold forIdxRefsM at h
      obtain ⟨p1, hp1, h⟩ := bind_ok_destruct h
      obtain ⟨a, refs'⟩ := p1
      obtain ⟨p2, hp2, h⟩ := bind_ok_destruct h
      obtain ⟨b, refs''⟩ := p2
      rw [Except.ok.injEq, Prod.mk.injEq] at h
      rw [← h.2]
      exact ih _ _ hp2 (service_entry_refs_mono hp1 hr)

/-- A service whose `bom-ref` is already collected when the services
loop starts yields the duplicate-service diagnostic. -/
theorem service_loop_dup :
    ∀ (xs : List JValue) (k i0 : Nat) (refs0 : List JValue) {d : List String}
      {refs1 : List JValue} {c r : JValue},
      xs.get? k = some c →
      pyIn "bom-ref" c = .ok true → pyGetItem c "bom-ref" = .ok r →
      jmem r refs0 = true →
      forIdxRefsM service_entry xs i0 refs0 = .ok (d, refs1) →
      ("❌ Duplicate service bom-ref: " ++ pyStr r) ∈ d := by
  intro xs
  induction xs with
  | nil => intro k i0 refs0 d refs1 c r hget; cases hget
  | cons x rest ih =>
      intro k i0 refs0 d refs1 c r hget hb hg hm h
      unfold forIdxRefsM at h
      obtain ⟨p1, hp1, h⟩ := bind_ok_destruct h
      obtain ⟨a, refs'⟩ := p1
      obtain ⟨p2, hp2, h⟩ := bind_ok_destruct h
      obtain ⟨b, refs''⟩ := p2
      rw [Except.ok.injEq, Prod.mk.injEq] at h
      cases k with
      | zero =>
          rw [List.get?_cons_zero] at hget
          injection hget with e
          subst e
          rw [← h.1]
          exact List.mem_append_left _ (service_entry_dup hp1 hb hg hm)
      | succ k2 =>
          rw [List.get?_cons_succ] at hget
          rw [← h.1]
          exact List.mem_append_right _
            (ih k2 _ _ hget hb hg (service_entry_refs_mono hp1 hm) hp2)

/-- The metadata-ref step never removes collected refs. -/
theorem metadata_ref_mono {data : JValue} {refs refs' : List JValue}
    {r : JValue} (h : metadata_ref_section data refs = .ok refs')
    (hr : jmem r refs = true) : jmem r refs' = true := by
  unfold metadata_ref_section at h
  obtain ⟨b1, _, h⟩ := bind_ok_destruct h
  split at h
  · obtain ⟨md, _, h⟩ := bind_ok_destruct h
    obtain ⟨b2, _, h⟩ := bind_ok_destruct h
    split at h
    · obtain ⟨mc, _, h⟩ := bind_ok_destruct h
      obtain ⟨b3, _, h⟩ := bind_ok_destruct h
      split at h
      · obtain ⟨r2, _, h⟩ := bind_ok_destruct h
        rw [pure_eq_ok, Except.ok.injEq] at h
        rw [← h]
        split
        · exact hr
        · exact jmem_append_right hr
      · rw [pure_eq_ok, Except.ok.injEq] at h; rw [← h]; exact hr
    · rw [pure_eq_ok, Except.ok.injEq] at h; rw [← h]; exact hr
  · rw [pure_eq_ok, Except.ok.injEq] at h; rw [← h]; exact hr

/-- The components block on an object document with a `components` list
is exactly the components loop started on the empty ref set. -/
theorem components_section_eq {fs : List (String × JValue)}
    {comps : List JValue} {version : String}
    (h : jfind fs "components" = some (.arr comps)) :
    components_section (.obj fs) version =
      forIdxRefsM (comp_entry version) comps 0 [] := by
  simp only [components_section, pyIn_of_jfind h, pyGetItem_of_jfind h,
    show pyIter (.arr comps) = .ok comps from rfl, okBind, reduceIte]

/-- The services block on an object document with a `services` list is
exactly the services loop. -/
theorem services_section_eq {fs : List (String × JValue)}
    {servs : List JValue} {refs : List JValue}
    (h : jfind fs "services" = some (.arr servs)) :
    services_section (.obj fs) refs =
      forIdxRefsM service_entry servs 0 refs := by
  simp only [services_section, pyIn_of_jfind h, pyGetItem_of_jfind h,
    show pyIter (.arr servs) = .ok servs from rfl, okBind, reduceIte]

/-- The dependencies block on an object document with a `dependencies`
list is exactly the dependencies loop over the collected refs. -/
theorem dependencies_section_eq {fs : List (String × JValue)}
    {deps : List JValue} {refs : List JValue}
    (h : jfind fs "dependencies" = some (.arr deps)) :
    dependencies_section (.obj fs) refs =
      forIdxM (dep_entry refs) deps 0 := by
  simp only [dependencies_section, pyIn_of_jfind h, pyGetItem_of_jfind h,
    show pyIter (.arr deps) = .ok deps from rfl, okBind, reduceIte]

/-- Every message produced by position `k` of an indexed loop is among
the loop's messages. -/
theorem forIdxM_parts {f : Nat → JValue → M (List String)} :
    ∀ (xs : List JValue) (k i0 : Nat) {x : JValue} {d : List String},
      xs.get? k = some x → forIdxM f xs i0 = .ok d →
      ∃ a, f (i0 + k) x = .ok a ∧ ∀ m ∈ a, m ∈ d := by
  intro xs
  induction xs with
  | nil => intro k i0 x d hget; cases hget
  | cons y rest ih =>
      intro k i0 x d hget h
      unfold forIdxM at h
      obtain ⟨a, ha, h⟩ := bind_ok_destruct h
      obtain ⟨b, hb, h⟩ := bind_ok_destruct h
      rw [Except.ok.injEq] at h
      cases k with
      | zero =>
          rw [List.get?_cons_zero] at hget
          injection hget with e
          subst e
          refine ⟨a, by rw [Nat.add_zero]; exact ha, fun m hm => ?_⟩
          rw [← h]
          exact List.mem_append_left _ hm
      | succ k2 =>
          rw [List.get?_cons_succ] at hget
          obtain ⟨a2, ha2, hsub⟩ := ih k2 (i0 + 1) hget hb
          refine ⟨a2, ?_, fun m hm => ?_⟩
          · rw [show i0 + (k2 + 1) = (i0 + 1) + k2 by omega]
            exact ha2
          · rw [← h]
            exact List.mem_append_right _ (hsub m hm)

/-- A loop whose every step yields no messages yields no messages. -/
theorem forIdxM_nil {f : Nat → JValue → M (List String)} :
    ∀ (xs : List JValue) (i0 : Nat),
      (∀ n x, x ∈ xs → f n x = .ok []) → forIdxM f xs i0 = .ok [] := by
  intro xs
  induction xs with
  | nil => intro i0 _; rfl
  | cons y rest ih =>
      intro i0 hf
      unfold forIdxM
      rw [hf i0 y (List.mem_cons_self y rest), okBind,
        ih (i0 + 1) (fun n x hx => hf n x (List.mem_cons_of_mem y hx)), okBind]
      rfl

/-- The services block never removes collected refs. -/
theorem services_section_mono {data : JValue} {refs : List JValue}
    {d : List String} {refs' : List JValue} {r : JValue}
    (h : services_section data refs = .ok (d, refs'))
    (hr : jmem r refs = true) : jmem r refs' = true := by
  unfold services_section at h
  obtain ⟨b, _, h⟩ := bind_ok_destruct h
  split at h
  · obtain ⟨v, _, h⟩ := bind_ok_destruct h
    obtain ⟨items, _, h⟩ := bind_ok_destruct h
    exact service_loop_refs_mono items _ _ h hr
  · rw [pure_eq_ok, Except.ok.injEq, Prod.mk.injEq] at h
    rw [← h.2]; exact hr

/-- The `dependsOn` check of one dependency with a `dependsOn` list is
exactly the indexed resolution loop. -/
theorem dependsOn_check_eq {df : List (String × JValue)} {ds : List JValue}
    {refs : List JValue} {i : Nat}
    (h : jfind df "dependsOn" = some (.arr ds)) :
    dependsOn_check refs i (.obj df) =
      forIdxM (fun j dr =>
        if jmem dr refs then pure []
        else pure ["❌ Dependency " ++ toString i ++ ".dependsOn[" ++
          toString j ++ "] '" ++ pyStr dr ++ "' not found"]) ds 0 := by
  simp only [dependsOn_check, pyIn_of_jfind h, pyGetItem_of_jfind h,
    show pyIter (.arr ds) = .ok ds from rfl, okBind, reduceIte]

/-- A dependency whose `ref` is declared yields no `ref` diagnostic. -/
theorem dep_ref_check_nil {df : List (String × JValue)} {refs : List JValue}
    {i : Nat} {rr : JValue}
    (h : jfind df "ref" = some rr) (hm : jmem rr refs = true) :
    dep_ref_check refs i (.obj df) = .ok [] := by
  simp only [dep_ref_check, pyIn_of_jfind h, okBind, Bool.not_true,
    pyGetItem_of_jfind h, hm, reduceIte]
  rfl

/-- **C10, witness**: a hash object with only `alg`, one with an unknown
algorithm and a non-string content (showing the content is not
inspected), and the length bound at a well-formed hash. -/
theorem hash_object_short_circuit_witness :
    (pyIn "alg" (JValue.obj [("content", .str "abc")]) = .ok false ∧
     validate_hash_object (.obj [("content", .str "abc")]) "p" =
       .ok ["❌ p missing required fields (alg, content)"]) ∧
    (validate_hash_object (.obj [("alg", .str "XX"), ("content", .num 7)]) "p" =
       .ok ["❌ p invalid algorithm: XX"]) ∧
    (validate_hash_object (.obj [("alg", .str "MD5"), ("content", .str "ff")]) "p" =
       .ok ["❌ p invalid MD5 hash content format"] ∧
     (["❌ p invalid MD5 hash content format"] : List String).length ≤ 1) :=
  ⟨⟨by rfl,
    hash_object_short_circuit.1 (.obj [("content", .str "abc")]) "p"
      (Or.inl (by rfl))⟩,
   hash_object_short_circuit.2.1 (.obj [("alg", .str "XX"), ("content", .num 7)])
     "p" (.str "XX") (.num 7) (by rfl) (by rfl) (by rfl) (by rfl) (by decide),
   ⟨by rfl,
    hash_object_short_circuit.2.2
      (.obj [("alg", .str "MD5"), ("content", .str "ff")]) "p"
      ["❌ p invalid MD5 hash content format"] (by rfl)⟩⟩

/-- **C1, counterexample.**  A document whose only duplicated `bom-ref`
pair involves a nested component yields no diagnostic at all — nested
components' refs are never collected or duplicate-checked. -/
theorem nested_duplicate_not_detected :
    validate_complete_cyclonedx_schema nestedDupDoc "1.3" = .ok [] := by
  rfl

/-- **C1, amended.**  Duplicate `bom-ref` detection covers only
top-level components and services: two top-level components sharing a
ref always yield the duplicate error, and a service sharing a ref with a
top-level component always yields the duplicate-service error; but a
nested component's ref and the metadata primary component's ref are
never duplicate-checked (both documents below validate cleanly). -/
theorem duplicate_bomref_scope :
    (∀ (fs : List (String × JValue)) (comps : List JValue) (version : String)
       (i j : Nat) (ci cj r : JValue) (issues : List String),
      jfind fs "components" = some (.arr comps) → i < j →
      comps.get? i = some ci → comps.get? j = some cj →
      pyIn "bom-ref" ci = .ok true → pyGetItem ci "bom-ref" = .ok r →
      pyIn "bom-ref" cj = .ok true → pyGetItem cj "bom-ref" = .ok r →
      validate_complete_cyclonedx_schema (.obj fs) version = .ok issues →
      ("❌ Duplicate bom-ref: " ++ pyStr r) ∈ issues) ∧
    (∀ (fs : List (String × JValue)) (comps servs : List JValue)
       (version : String) (i k : Nat) (ci sk r : JValue) (issues : List String),
      jfind fs "components" = some (.arr comps) →
      jfind fs "services" = some (.arr servs) →
      comps.get? i = some ci → servs.get? k = some sk →
      pyIn "bom-ref" ci = .ok true → pyGetItem ci "bom-ref" = .ok r →
      pyIn "bom-ref" sk = .ok true → pyGetItem sk "bom-ref" = .ok r →
      validate_complete_cyclonedx_schema (.obj fs) version = .ok issues →
      ("❌ Duplicate service bom-ref: " ++ pyStr r) ∈ issues) ∧
    (validate_complete_cyclonedx_schema metaDupDoc "1.3" = .ok []) := by
  refine ⟨?_, ?_, by rfl⟩
  · intro fs comps version i j ci cj r issues hfind hij hgi hgj hbi hgri hbj
      hgrj hok
    unfold validate_complete_cyclonedx_schema at hok
    obtain ⟨i1, _, hok⟩ := bind_ok_destruct hok
    obtain ⟨i2, _, hok⟩ := bind_ok_destruct hok
    obtain ⟨i3, _, hok⟩ := bind_ok_destruct hok
    obtain ⟨i4, _, hok⟩ := bind_ok_destruct hok
    obtain ⟨i5, _, hok⟩ := bind_ok_destruct hok
    obtain ⟨p6, hp6, hok⟩ := bind_ok_destruct hok
    obtain ⟨i6, refs1⟩ := p6
    rw [components_section_eq hfind] at hp6
    have hdup := comp_loop_pair comps i j 0 [] hij hgi hgj hbi hgri hbj hgrj hp6
    obtain ⟨refs2, _, hok⟩ := bind_ok_destruct hok
    obtain ⟨p7, _, hok⟩ := bind_ok_destruct hok
    obtain ⟨i7, refs3⟩ := p7
    obtain ⟨i8, _, hok⟩ := bind_ok_destruct hok
    obtain ⟨i9, _, hok⟩ := bind_ok_destruct hok
    obtain ⟨i10, _, hok⟩ := bind_ok_destruct hok
    obtain ⟨i11, _, hok⟩ := bind_ok_destruct hok
    rw [pure_eq_ok, Except.ok.injEq] at hok
    rw [← hok]
    simp only [List.mem_append]
    tauto
  · intro fs comps servs version i k ci sk r issues hcfind hsfind hgi hgk hbi
      hgri hbk hgrk hok
    unfold validate_complete_cyclonedx_schema at hok
    obtain ⟨i1, _, hok⟩ := bind_ok_destruct hok
    obtain ⟨i2, _, hok⟩ := bind_ok_destruct hok
    obtain ⟨i3, _, hok⟩ := bind_ok_destruct hok
    obtain ⟨i4, _, hok⟩ := bind_ok_destruct hok
    obtain ⟨i5, _, hok⟩ := bind_ok_destruct hok
    obtain ⟨p6, hp6, hok⟩ := bind_ok_destruct hok
    obtain ⟨i6, refs1⟩ := p6
    rw [components_section_eq hcfind] at hp6
    have hcol := comp_loop_collect comps i 0 [] hgi hbi hgri hp6
    obtain ⟨refs2, hmr, hok⟩ := bind_ok_destruct hok
    have hcol2 := metadata_ref_mono hmr hcol
    obtain ⟨p7, hp7, hok⟩ := bind_ok_destruct hok
    obtain ⟨i7, refs3⟩ := p7
    rw [services_section_eq hsfind] at hp7
    have hdup := service_loop_dup servs k 0 refs2 hgk hbk hgrk hcol2 hp7
    obtain ⟨i8, _, hok⟩ := bind_ok_destruct hok
    obtain ⟨i9, _, hok⟩ := bind_ok_destruct hok
    obtain ⟨i10, _, hok⟩ := bind_ok_destruct hok
    obtain ⟨i11, _, hok⟩ := bind_ok_destruct hok
    rw [pure_eq_ok, Except.ok.injEq] at hok
    rw [← hok]
    simp only [List.mem_append]
    tauto

/-- **C1, witness** at two concrete documents: a duplicated pair of
top-level components, and a service duplicating a component's ref. -/
theorem duplicate_bomref_scope_witness :
    (validate_complete_cyclonedx_schema (.obj dupPairFields) "1.3" =
       .ok ["❌ Duplicate bom-ref: x"] ∧
     ("❌ Duplicate bom-ref: x") ∈ ["❌ Duplicate bom-ref: x"]) ∧
    (validate_complete_cyclonedx_schema (.obj svcDupFields) "1.3" =
       .ok ["❌ Duplicate service bom-ref: x"] ∧
     ("❌ Duplicate service bom-ref: x") ∈ ["❌ Duplicate service bom-ref: x"]) :=
  ⟨⟨by rfl,
    duplicate_bomref_scope.1 dupPairFields
      [.obj [("type", .str "library"), ("name", .str "A"),
             ("version", .str "1"), ("bom-ref", .str "x")],
       .obj [("type", .str "library"), ("name", .str "B"),
             ("version", .str "1"), ("bom-ref", .str "x")]]
      "1.3" 0 1 _ _ (.str "x") _ (by rfl) (by omega) (by rfl) (by rfl)
      (by rfl) (by rfl) (by rfl) (by rfl) (by rfl)⟩,
   ⟨by rfl,
    duplicate_bomref_scope.2.1 svcDupFields
      [.obj [("type", .str "library"), ("name", .str "A"),
             ("version", .str "1"), ("bom-ref", .str "x")]]
      [.obj [("name", .str "S"), ("bom-ref", .str "x")]]
      "1.3" 0 0 _ _ (.str "x") _ (by rfl) (by rfl) (by rfl) (by rfl)
      (by rfl) (by rfl) (by rfl) (by rfl) (by rfl)⟩⟩

/-- **C2, counterexample.**  A `dependsOn` entry naming the `bom-ref` of
a nested component — declared in the document — is still reported as
dangling, because nested components' refs are never collected. -/
theorem nested_declared_ref_reported_dangling :
    validate_complete_cyclonedx_schema nestedRefDoc "1.3" =
      .ok ["❌ Dependency 0.dependsOn[0] 'inner' not found"] := by
  rfl

/-- **C2, amended.**  Dependency resolution checks `ref` and `dependsOn`
entries against the set collected from top-level components, the
metadata primary component, and services only (not nested components):
an entry outside that set is always reported dangling; a dependency all
of whose entries are in the set contributes no diagnostic; and every
top-level component's ref is in the set by the time dependencies are
checked, regardless of document order — so forward references among the
collected kinds are valid. -/
theorem dependency_resolution_scope :
    (∀ (fs : List (String × JValue)) (version : String) (issues : List String)
       (i6 : List String) (refs1 refs2 : List JValue) (i7 : List String)
       (refs3 : List JValue) (deps : List JValue) (i j : Nat)
       (df : List (String × JValue)) (ds : List JValue) (v : JValue),
      validate_complete_cyclonedx_schema (.obj fs) version = .ok issues →
      components_section (.obj fs) version = .ok (i6, refs1) →
      metadata_ref_section (.obj fs) refs1 = .ok refs2 →
      services_section (.obj fs) refs2 = .ok (i7, refs3) →
      jfind fs "dependencies" = some (.arr deps) →
      deps.get? i = some (.obj df) →
      jfind df "dependsOn" = some (.arr ds) →
      ds.get? j = some v →
      jmem v refs3 = false →
      ("❌ Dependency " ++ toString i ++ ".dependsOn[" ++ toString j ++
        "] '" ++ pyStr v ++ "' not found") ∈ issues) ∧
    (∀ (refs : List JValue) (i : Nat) (df : List (String × JValue))
       (rr : JValue) (ds : List JValue),
      jfind df "ref" = some rr → jmem rr refs = true →
      jfind df "dependsOn" = some (.arr ds) →
      (∀ w ∈ ds, jmem w refs = true) →
      dep_entry refs i (.obj df) = .ok []) ∧
    (∀ (fs : List (String × JValue)) (version : String)
       (i6 : List String) (refs1 refs2 : List JValue) (i7 : List String)
       (refs3 : List JValue) (comps : List JValue) (k : Nat) (c r : JValue),
      components_section (.obj fs) version = .ok (i6, refs1) →
      metadata_ref_section (.obj fs) refs1 = .ok refs2 →
      services_section (.obj fs) refs2 = .ok (i7, refs3) →
      jfind fs "components" = some (.arr comps) →
      comps.get? k = some c →
      pyIn "bom-ref" c = .ok true → pyGetItem c "bom-ref" = .ok r →
      jmem r refs3 = true) := by
  refine ⟨?_, ?_, ?_⟩
  · intro fs version issues i6 refs1 refs2 i7 refs3 deps i j df ds v hok hcs
      hmr hsv hdfind hdep hdofind hv hnm
    unfold validate_complete_cyclonedx_schema at hok
    obtain ⟨i1, _, hok⟩ := bind_ok_destruct hok
    obtain ⟨i2, _, hok⟩ := bind_ok_destruct hok
    obtain ⟨i3, _, hok⟩ := bind_ok_destruct hok
    obtain ⟨i4, _, hok⟩ := bind_ok_destruct hok
    obtain ⟨i5, _, hok⟩ := bind_ok_destruct hok
    obtain ⟨p6, hp6, hok⟩ := bind_ok_destruct hok
    rw [hcs] at hp6
    injection hp6 with e6
    subst e6
    obtain ⟨refs2x, hmrx, hok⟩ := bind_ok_destruct hok
    rw [hmr] at hmrx
    injection hmrx with e2
    subst e2
    obtain ⟨p7, hp7, hok⟩ := bind_ok_destruct hok
    rw [hsv] at hp7
    injection hp7 with e7
    subst e7
    obtain ⟨i8, hi8, hok⟩ := bind_ok_destruct hok
    rw [dependencies_section_eq hdfind] at hi8
    obtain ⟨a, ha, hsub⟩ := forIdxM_parts deps i 0 hdep hi8
    rw [Nat.zero_add] at ha
    unfold dep_entry at ha
    obtain ⟨m1, _, ha⟩ := bind_ok_destruct ha
    obtain ⟨m2, hm2, ha⟩ := bind_ok_destruct ha
    rw [pure_eq_ok, Except.ok.injEq] at ha
    rw [dependsOn_check_eq hdofind] at hm2
    obtain ⟨a2, ha2, hsub2⟩ := forIdxM_parts ds j 0 hv hm2
    rw [Nat.zero_add] at ha2
    have hne : ¬ (jmem v refs3 = true) := by
      rw [hnm]; exact Bool.false_ne_true
    rw [if_neg hne, pure_eq_ok, Except.ok.injEq] at ha2
    have hmem2 : ("❌ Dependency " ++ toString i ++ ".dependsOn[" ++
        toString j ++ "] '" ++ pyStr v ++ "' not found") ∈ m2 :=
      hsub2 _ (by rw [← ha2]; exact List.mem_singleton_self _)
    have hmema : ("❌ Dependency " ++ toString i ++ ".dependsOn[" ++
        toString j ++ "] '" ++ pyStr v ++ "' not found") ∈ a := by
      rw [← ha]
      exact List.mem_append_right _ hmem2
    have hmem8 := hsub _ hmema
    obtain ⟨i9, _, hok⟩ := bind_ok_destruct hok
    obtain ⟨i10, _, hok⟩ := bind_ok_destruct hok
    obtain ⟨i11, _, hok⟩ := bind_ok_destruct hok
    rw [pure_eq_ok, Except.ok.injEq] at hok
    rw [← hok]
    simp only [List.mem_append]
    tauto
  · intro refs i df rr ds href hm hdo hall
    unfold dep_entry
    rw [dep_ref_check_nil href hm, okBind, dependsOn_check_eq hdo,
      forIdxM_nil ds 0 (fun n w hw => by rw [hall w hw]; rfl), okBind]
    rfl
  · intro fs version i6 refs1 refs2 i7 refs3 comps k c r hcs hmr hsv hcfind
      hget hb hg
    rw [components_section_eq hcfind] at hcs
    exact services_section_mono hsv
      (metadata_ref_mono hmr (comp_loop_collect comps k 0 [] hget hb hg hcs))

/-- **C2, witness** at a concrete document: the dangling entry `"zz"` is
reported, the fully-declared dependency contributes nothing (including a
forward reference to a service), and the component ref `"a"` is in the
collected set. -/
theorem dependency_resolution_scope_witness :
    (("❌ Dependency 0.dependsOn[1] 'zz' not found") ∈
       ["❌ Dependency 0.dependsOn[1] 'zz' not found"]) ∧
    (dep_entry [.str "a", .str "s"] 0
       (.obj [("ref", .str "a"), ("dependsOn", .arr [.str "s"])]) = .ok []) ∧
    jmem (.str "a") [.str "a", .str "s"] = true :=
  ⟨dependency_resolution_scope.1 depDocFields "1.3"
     ["❌ Dependency 0.dependsOn[1] 'zz' not found"]
     [] [.str "a"] [.str "a"] [] [.str "a", .str "s"]
     [.obj [("ref", .str "a"), ("dependsOn", .arr [.str "s", .str "zz"])]]
     0 1
     [("ref", .str "a"), ("dependsOn", .arr [.str "s", .str "zz"])]
     [.str "s", .str "zz"] (.str "zz")
     (by rfl) (by rfl) (by rfl) (by rfl) (by rfl) (by rfl) (by rfl) (by rfl)
     (by rfl),
   dependency_resolution_scope.2.1 [.str "a", .str "s"] 0
     [("ref", .str "a"), ("dependsOn", .arr [.str "s"])] (.str "a")
     [.str "s"] (by rfl) (by rfl) (by rfl)
     (by intro w hw; rw [List.mem_singleton] at hw; rw [hw]; rfl),
   dependency_resolution_scope.2.2 depDocFields "1.3" [] [.str "a"]
     [.str "a"] [] [.str "a", .str "s"]
     [.obj [("type", .str "library"), ("name", .str "A"),
            ("version", .str "1"), ("bom-ref", .str "a")]]
     0 _ (.str "a") (by rfl) (by rfl) (by rfl) (by rfl) (by rfl) (by rfl)
     (by rfl)⟩

end CycloneDX
